import Mathlib

/-!
Shallow embedding of the double-entry accounting core of the ecobacgiang
backend (Express + Mongoose routes in `src/routes/accounting.js`,
`src/routes/orders.js`, `src/scripts/seed-accounts.js`, and the
`checkLockDate` middleware).  Money amounts are embedded as rationals
(JavaScript numbers used as exact decimals in the source), dates as
integers counted in days (only order comparisons and day offsets such as
`dueDate.setDate(dueDate.getDate() + 7)` matter).  Mongo collections are lists; `findOne` is `List.find?`;
documents get explicit `id` fields standing for Mongo `_id`.
Mongoose sessions are embedded by threading a session copy of the state:
a handler that aborts its transaction returns the original state, a
handler that commits returns the session copy.  Handlers that the source
runs without a session mutate the state step by step instead.
-/

namespace Eco

/-- Balance tolerance used by every balance validation in the source:
`Math.abs(totalDebit - totalCredit) > 0.01`. -/
def tol : ℚ := 1 / 100

/-!  Character-list implementations of the string operations the source
uses (`String.startsWith`, `trim`, `toLowerCase`, … — the core `String`
versions do not reduce definitionally in this toolchain, which would
block evaluating the embedding on concrete inputs).  -/

/-- `s.startsWith(pre)`. -/
def strStartsWith (s pre : String) : Bool := pre.data.isPrefixOf s.data

/-- `s.toLowerCase()`. -/
def strToLower (s : String) : String := ⟨s.data.map Char.toLower⟩

/-- `s.trim()`. -/
def strTrim (s : String) : String :=
  ⟨((s.data.dropWhile Char.isWhitespace).reverse.dropWhile Char.isWhitespace).reverse⟩

/-- `/^[0-9]+$/`-style all-digits test. -/
def strAllDigit (s : String) : Bool := s.data.all Char.isDigit

/-- `s.replace(/\s+/g, '.')` (single blanks in practice). -/
def strDotSpaces (s : String) : String :=
  ⟨s.data.map (fun c => if c = ' ' then '.' else c)⟩

/-- `s.split(sep)[0]` for a one-character separator. -/
def firstSegment (sep : Char) (s : String) : String :=
  ⟨s.data.takeWhile (fun c => c ≠ sep)⟩

/-- JavaScript `a || b` on an optional number: `0` and `null`/`undefined`
are falsy. -/
def jsOrQ (a : Option ℚ) (b : ℚ) : ℚ :=
  match a with
  | some x => if x = 0 then b else x
  | none => b

/-- JavaScript `a || b` on an optional string: `""` and `null`/`undefined`
are falsy. -/
def jsOrS (a : Option String) (b : String) : String :=
  match a with
  | some x => if x = "" then b else x
  | none => b

/-- One line of a journal entry (`lines` array element in the
`JournalEntry` documents built by the routes). -/
structure Line where
  accountCode : String
  debit : ℚ
  credit : ℚ
  description : String
  deriving Repr, DecidableEq

/-- A `JournalEntry` document as the routes build it.  `id` stands for the
Mongo `_id`; the model file itself is not in the repository, the fields
are the ones the routes assign. -/
structure JournalEntry where
  id : String
  referenceNo : String
  date : ℤ
  postingDate : ℤ
  memo : String
  entryType : String
  lines : List Line
  sourceId : Option String
  sourceType : Option String
  status : String
  deriving Repr, DecidableEq

/-- Total of the `debit` fields of a list of lines. -/
def linesDebit (l : List Line) : ℚ := (l.map Line.debit).sum

/-- Total of the `credit` fields of a list of lines. -/
def linesCredit (l : List Line) : ℚ := (l.map Line.credit).sum

/-- The balance invariant the source validates:
`Math.abs(totalDebit - totalCredit) <= 0.01`. -/
def balancedWithin (l : List Line) : Prop := |linesDebit l - linesCredit l| ≤ tol

instance (l : List Line) : Decidable (balancedWithin l) := by
  unfold balancedWithin; infer_instance

/-- An `Account` document (chart of accounts).  The model file is not in
the repository; the fields are those assigned by
`POST /api/accounting/accounts` and `scripts/seed-accounts.js`. -/
structure Account where
  code : String
  name : String
  accountType : String
  status : String := "active"
  deriving Repr, DecidableEq

/-- A `Receivable` document, with the fields the routes assign.
`journalEntry` and `customer` are the ids of the referenced documents. -/
structure Receivable where
  id : String
  journalEntry : String
  customer : String
  orderRef : Option String
  originalAmount : ℚ
  remainingAmount : ℚ
  paymentStatus : String
  dueDate : ℤ
  invoiceDate : ℤ
  deriving Repr, DecidableEq

/-- A `Payable` document, with the fields the routes assign. -/
structure Payable where
  id : String
  journalEntry : String
  supplier : String
  billType : String
  originalAmount : ℚ
  remainingAmount : ℚ
  paymentStatus : String
  dueDate : ℤ
  invoiceDate : ℤ
  deriving Repr, DecidableEq

/-- An `AccountingPeriod` document (`periods` routes and close-period). -/
structure Period where
  id : String
  periodName : String
  startDate : ℤ
  endDate : ℤ
  lockDate : Option ℤ
  status : String
  closedAt : Option ℤ
  closedBy : Option String
  deriving Repr, DecidableEq

/-- A `Transaction` document (`/transactions` routes). -/
structure Txn where
  id : String
  type : String
  amount : ℚ
  description : String
  category : String
  date : ℤ
  reference : String
  paymentStatus : String
  deriving Repr, DecidableEq

/-- A `User` document as the partner-resolution helpers use it. -/
structure User where
  id : String
  name : String
  email : String
  phone : Option String
  role : String
  deriving Repr, DecidableEq

/-- A `Product` document as `postCOGSEntry` reads it. -/
structure Product where
  id : String
  name : String
  averageCost : Option ℚ
  price : Option ℚ
  stock : Option ℚ
  deriving Repr, DecidableEq

/-- One item of `order.orderItems`. -/
structure OrderItem where
  product : String
  quantity : ℚ
  deriving Repr, DecidableEq

/-- An `Order` document (`src/models/Order.js`), restricted to the fields
the accounting code reads.  `user` is optional in the schema
(`required: false, default: null`). -/
structure Order where
  id : String
  user : Option String
  orderItems : List OrderItem
  name : String
  finalTotal : ℚ
  paymentMethod : String
  status : String
  createdAt : ℤ
  updatedAt : Option ℤ
  deriving Repr, DecidableEq

/-- The persistent state: one list per Mongo collection touched by the
accounting code. -/
structure St where
  accounts : List Account
  entries : List JournalEntry
  receivables : List Receivable
  payables : List Payable
  transactions : List Txn
  periods : List Period
  users : List User
  products : List Product
  orders : List Order
  deriving Repr, DecidableEq

/-- A request line as sent to the journal-entry routes; `parseFloat(x) || 0`
turns a missing or non-numeric debit/credit into `0`. -/
structure LineReq where
  accountCode : String
  debit : Option ℚ
  credit : Option ℚ
  description : Option String
  deriving Repr, DecidableEq

/-- `parseFloat(line.debit) || 0`. -/
def lineReqDebit (l : LineReq) : ℚ := l.debit.getD 0

/-- `parseFloat(line.credit) || 0`. -/
def lineReqCredit (l : LineReq) : ℚ := l.credit.getD 0

/-- `lines.reduce((sum, line) => sum + (parseFloat(line.debit) || 0), 0)`. -/
def reqDebitTotal (lines : List LineReq) : ℚ := (lines.map lineReqDebit).sum

def reqCreditTotal (lines : List LineReq) : ℚ := (lines.map lineReqCredit).sum

/-- The line document built from a request line by the journal-entry
routes. -/
def mkLine (l : LineReq) : Line :=
  { accountCode := l.accountCode
    debit := lineReqDebit l
    credit := lineReqCredit l
    description := l.description.getD "" }

/-- The account-existence validation of the journal-entry routes:
collect the distinct codes, fetch the matching accounts, and require one
account per code. -/
def accountCodesExist (accounts : List Account) (codes : List String) : Bool :=
  codes.dedup.all (fun c => accounts.any (fun a => a.code = c))

/-- Responses of the journal-entry style routes. -/
inductive JEResp where
  | badRequest (msg : String)
  | notFound
  | created (e : JournalEntry)
  | okUpdated (e : JournalEntry)
  | okDeleted
  deriving Repr, DecidableEq

/-- `POST /api/accounting/journal-entries` (manual entry creation,
`src/routes/accounting.js` lines 141-209).  `newId` stands for the fresh
Mongo `_id`, `now` for `new Date()`.  The duplicate-reference rejection
embeds the unique index on `referenceNo` (spec, Journal Store), whose
violation the route maps to a 400. -/
def postJournalEntries (st : St) (newId : String) (now : ℤ)
    (referenceNo : Option String) (date : Option ℤ) (memo : Option String)
    (entryType : Option String) (lines : List LineReq)
    (sourceId sourceType : Option String) : JEResp × St :=
  if referenceNo.getD "" = "" ∨ date.isNone ∨ memo.getD "" = "" ∨ lines.isEmpty then
    (.badRequest "missing required fields", st)
  else if tol < |reqDebitTotal lines - reqCreditTotal lines| then
    (.badRequest "entry not balanced", st)
  else if ¬ accountCodesExist st.accounts (lines.map LineReq.accountCode) then
    (.badRequest "account does not exist", st)
  else
    let refNo := referenceNo.getD ""
    if st.entries.any (fun e => e.referenceNo = refNo) then
      (.badRequest "duplicate reference number", st)
    else
      let e : JournalEntry :=
        { id := newId
          referenceNo := refNo
          date := date.getD 0
          postingDate := now
          memo := memo.getD ""
          entryType := entryType.getD "manual"
          lines := lines.map mkLine
          sourceId := sourceId
          sourceType := sourceType
          status := "posted" }
      (.created e, { st with entries := st.entries ++ [e] })

/-- `PUT /api/accounting/journal-entries/:id`
(`src/routes/accounting.js` lines 212-284).  The source carries a
`// TODO: Implement lock date check` comment where the lock-date guard
should run: no lock-date consultation happens. -/
def updateJournalEntry (st : St) (entryId : String)
    (referenceNo : Option String) (date : Option ℤ) (memo : Option String)
    (entryType : Option String) (lines : Option (List LineReq)) : JEResp × St :=
  match st.entries.find? (fun e => e.id = entryId) with
  | none => (.notFound, st)
  | some entry =>
    let newLines := lines.getD []
    if ¬ newLines.isEmpty ∧ tol < |reqDebitTotal newLines - reqCreditTotal newLines| then
      (.badRequest "entry not balanced", st)
    else if ¬ newLines.isEmpty ∧
        ¬ accountCodesExist st.accounts (newLines.map LineReq.accountCode) then
      (.badRequest "account does not exist", st)
    else
      let e1 := if newLines.isEmpty then entry else { entry with lines := newLines.map mkLine }
      let e2 : JournalEntry :=
        { e1 with
          referenceNo := jsOrS referenceNo e1.referenceNo
          date := date.getD e1.date
          memo := jsOrS memo e1.memo
          entryType := jsOrS entryType e1.entryType }
      if st.entries.any (fun e => e.id ≠ entryId ∧ e.referenceNo = e2.referenceNo) then
        (.badRequest "duplicate reference number", st)
      else
        (.okUpdated e2,
          { st with entries := st.entries.map (fun e => if e.id = entryId then e2 else e) })

/-- `DELETE /api/accounting/journal-entries/:id`
(`src/routes/accounting.js` lines 287-327).  Again the lock-date guard is
only a `TODO`; the only guard is the referential-integrity check against
`Receivable`/`Payable`. -/
def deleteJournalEntry (st : St) (entryId : String) : JEResp × St :=
  match st.entries.find? (fun e => e.id = entryId) with
  | none => (.notFound, st)
  | some _ =>
    let hasReceivable := st.receivables.any (fun r => r.journalEntry = entryId)
    let hasPayable := st.payables.any (fun p => p.journalEntry = entryId)
    if hasReceivable ∨ hasPayable then
      (.badRequest "debt record references this entry", st)
    else
      (.okDeleted, { st with entries := st.entries.filter (fun e => e.id ≠ entryId) })

/-- Result of the `checkLockDate` middleware. -/
structure LockCheck where
  isLocked : Bool
  deriving Repr, DecidableEq

/-- `checkLockDate(transactionDate)` (`middleware/lockDateCheck.js`):
find a closed period with a non-null lock date whose range contains the
transaction date, and report locked when the date is on or before the
lock date. -/
def checkLockDate (periods : List Period) (transactionDate : ℤ) : LockCheck :=
  match periods.find? (fun p =>
      p.startDate ≤ transactionDate ∧ transactionDate ≤ p.endDate ∧
      p.lockDate ≠ none ∧ p.status = "closed") with
  | some p =>
    match p.lockDate with
    | some ld => if transactionDate ≤ ld then { isLocked := true } else { isLocked := false }
    | none => { isLocked := false }
  | none => { isLocked := false }

/-- Responses of the `/transactions` update/delete routes. -/
inductive TxnResp where
  | badRequest (msg : String)
  | notFound
  | forbiddenLocked
  | okUpdated (t : Txn)
  | okDeleted
  deriving Repr, DecidableEq

/-- `PUT /api/accounting/transactions/:id`
(`src/routes/accounting.js` lines 2616-2659).  No lock-date check is
performed on update. -/
def updateTransaction (st : St) (txnId : String)
    (type : Option String) (amount : Option ℚ) (description : Option String)
    (category : Option String) (date : Option ℤ) (reference : Option String)
    (paymentStatus : Option String) : TxnResp × St :=
  match st.transactions.find? (fun t => t.id = txnId) with
  | none => (.notFound, st)
  | some txn =>
    if jsOrS type "" ≠ "" ∧ jsOrS type "" ≠ "income" ∧ jsOrS type "" ≠ "expense" then
      (.badRequest "invalid type", st)
    else if amount.isSome ∧ amount.getD 0 ≤ 0 then
      (.badRequest "amount must be positive", st)
    else
      let t2 : Txn :=
        { txn with
          type := jsOrS type txn.type
          amount := amount.getD txn.amount
          description := jsOrS description txn.description
          category := jsOrS category txn.category
          date := date.getD txn.date
          reference := match reference with | some r => r | none => txn.reference
          paymentStatus := jsOrS paymentStatus txn.paymentStatus }
      (.okUpdated t2,
        { st with transactions := st.transactions.map (fun t => if t.id = txnId then t2 else t) })

/-- `DELETE /api/accounting/transactions/:id`
(`src/routes/accounting.js` lines 2662-2690).  This is the one mutation
route that consults `checkLockDate`. -/
def deleteTransaction (st : St) (txnId : String) : TxnResp × St :=
  match st.transactions.find? (fun t => t.id = txnId) with
  | none => (.notFound, st)
  | some txn =>
    if (checkLockDate st.periods txn.date).isLocked then
      (.forbiddenLocked, st)
    else
      (.okDeleted, { st with transactions := st.transactions.filter (fun t => t.id ≠ txnId) })

/-- `POST /api/accounting/internal-transfer`
(`src/routes/accounting.js` lines 1883-2027).  Runs inside a session;
every error path aborts, so errors return the original state. -/
def internalTransfer (st : St) (newId : String) (now : ℤ)
    (fromAccountCode toAccountCode : Option String) (amount : Option ℚ)
    (description : Option String) (date : Option ℤ) (reference : Option String)
    (genRef : String) : JEResp × St :=
  if fromAccountCode.getD "" = "" ∨ toAccountCode.getD "" = "" ∨
      jsOrQ amount 0 = 0 ∨ date.isNone then
    (.badRequest "missing required fields", st)
  else
    let fromCode := fromAccountCode.getD ""
    let toCode := toAccountCode.getD ""
    if fromCode = toCode then
      (.badRequest "cannot transfer within one account", st)
    else
      let amountNum := amount.getD 0
      if amountNum ≤ 0 then
        (.badRequest "amount must be positive", st)
      else
        match st.accounts.find? (fun a => a.code = fromCode),
            st.accounts.find? (fun a => a.code = toCode) with
        | some fromAccount, some toAccount =>
          if fromAccount.accountType ≠ "asset" ∨ toAccount.accountType ≠ "asset" then
            (.badRequest "both accounts must be asset accounts", st)
          else
            let refNo := jsOrS reference genRef
            if st.entries.any (fun e => e.referenceNo = refNo) then
              (.badRequest "duplicate reference number", st)
            else
              let lines : List Line :=
                [ { accountCode := toCode, debit := amountNum, credit := 0
                    description := jsOrS description "transfer in" }
                , { accountCode := fromCode, debit := 0, credit := amountNum
                    description := jsOrS description "transfer out" } ]
              if tol < |linesDebit lines - linesCredit lines| then
                (.badRequest "entry not balanced", st)
              else
                let e : JournalEntry :=
                  { id := newId
                    referenceNo := refNo
                    date := date.getD 0
                    postingDate := now
                    memo := jsOrS description "internal transfer"
                    entryType := "transfer"
                    lines := lines
                    sourceId := none
                    sourceType := some "MANUAL"
                    status := "posted" }
                (.created e, { st with entries := st.entries ++ [e] })
        | _, _ => (.badRequest "account does not exist", st)

/-- `POST /api/accounting/adjusting-entry`
(`src/routes/accounting.js` lines 3393-3503).  Session-wrapped; errors
abort and leave the state unchanged. -/
def postAdjustingEntry (st : St) (newId : String) (now : ℤ)
    (referenceNo : Option String) (date : Option ℤ) (adjustedDate : Option ℤ)
    (memo : Option String) (lines : List LineReq) (genRef : String) : JEResp × St :=
  if date.isNone ∨ adjustedDate.isNone ∨ lines.length < 2 then
    (.badRequest "missing required fields", st)
  else if tol < |reqDebitTotal lines - reqCreditTotal lines| then
    (.badRequest "entry not balanced", st)
  else if ¬ accountCodesExist st.accounts (lines.map LineReq.accountCode) then
    (.badRequest "account does not exist", st)
  else
    let refNo := jsOrS referenceNo genRef
    if st.entries.any (fun e => e.referenceNo = refNo) then
      (.badRequest "duplicate reference number", st)
    else
      let e : JournalEntry :=
        { id := newId
          referenceNo := refNo
          date := date.getD 0
          postingDate := now
          memo := memo.getD "adjusting entry"
          entryType := "adjusting"
          lines := lines.map (fun l =>
            { accountCode := l.accountCode
              debit := lineReqDebit l
              credit := lineReqCredit l
              description := l.description.getD (memo.getD "") })
          sourceId := none
          sourceType := some "adjusting_entry"
          status := "posted" }
      (.created e, { st with entries := st.entries ++ [e] })

/-- Mongo date filter of the reporting queries: an absent bound is no
constraint. -/
def inRange (startDate endDate : Option ℤ) (d : ℤ) : Bool :=
  (match startDate with | some s => decide (s ≤ d) | none => true) &&
  (match endDate with | some e => decide (d ≤ e) | none => true)

/-- The posted entries a reporting query over a date range matches. -/
def postedInRange (st : St) (startDate endDate : Option ℤ) : List JournalEntry :=
  st.entries.filter (fun e => e.status = "posted" ∧ inRange startDate endDate e.date)

/-- `$unwind: lines` over the matched entries. -/
def rangeLines (st : St) (startDate endDate : Option ℤ) : List Line :=
  (postedInRange st startDate endDate).flatMap JournalEntry.lines

/-- One row of the trial-balance report. -/
structure TBRow where
  accountCode : String
  accountName : String
  accountType : String
  totalDebit : ℚ
  totalCredit : ℚ
  deriving Repr, DecidableEq

/-- `GET /api/accounting/trial-balance`
(`src/routes/accounting.js` lines 383-433): match posted entries in the
range, unwind lines, group by account code summing debit and credit,
`$lookup` the account and `$unwind` it (an inner join: a group whose code
has no account document is dropped), and sort by account code. -/
def trialBalance (st : St) (startDate endDate : Option ℤ) : List TBRow :=
  let ls := rangeLines st startDate endDate
  let codes := (ls.map Line.accountCode).dedup
  let sorted := codes.mergeSort (fun a b => a ≤ b)
  sorted.filterMap (fun c =>
    match st.accounts.find? (fun a => a.code = c) with
    | some acc =>
      some { accountCode := c
             accountName := acc.name
             accountType := acc.accountType
             totalDebit := ((ls.filter (fun l => l.accountCode = c)).map Line.debit).sum
             totalCredit := ((ls.filter (fun l => l.accountCode = c)).map Line.credit).sum }
    | none => none)

/-- Account-code class matched by the close-period revenue aggregation
(`'lines.accountCode': { $regex: /^5|^7/ }`). -/
def isRevenueCode (c : String) : Bool := strStartsWith c "5" || strStartsWith c "7"

/-- Account-code class matched by the close-period expense aggregation
(`$regex: /^6|^8/`). -/
def isExpenseCode (c : String) : Bool := strStartsWith c "6" || strStartsWith c "8"

/-- Posted lines dated inside a period (close-period `$match` +
`$unwind`). -/
def periodPostedLines (st : St) (p : Period) : List Line :=
  (st.entries.filter (fun e =>
    e.status = "posted" ∧ p.startDate ≤ e.date ∧ e.date ≤ p.endDate)).flatMap
    JournalEntry.lines

/-- The revenue `$group` of close-period: per account code with a
positive-credit revenue-class line, the sum of those credits.  Mongo does
not fix the group order; the code order is first occurrence, which only
affects line order inside the closing entry. -/
def revenueAgg (st : St) (p : Period) : List (String × ℚ) :=
  let ls := (periodPostedLines st p).filter
    (fun l => isRevenueCode l.accountCode ∧ 0 < l.credit)
  ((ls.map Line.accountCode).dedup).map (fun c =>
    (c, ((ls.filter (fun l => l.accountCode = c)).map Line.credit).sum))

/-- The expense `$group` of close-period: per account code with a
positive-debit expense-class line, the sum of those debits. -/
def expenseAgg (st : St) (p : Period) : List (String × ℚ) :=
  let ls := (periodPostedLines st p).filter
    (fun l => isExpenseCode l.accountCode ∧ 0 < l.debit)
  ((ls.map Line.accountCode).dedup).map (fun c =>
    (c, ((ls.filter (fun l => l.accountCode = c)).map Line.debit).sum))

def totalRevenueOf (st : St) (p : Period) : ℚ := ((revenueAgg st p).map Prod.snd).sum

def totalExpenseOf (st : St) (p : Period) : ℚ := ((expenseAgg st p).map Prod.snd).sum

/-- Lines of the revenue closing entry: debit each revenue account by its
total, credit account 911 by the grand total (only when positive). -/
def revenueClosingLines (st : St) (p : Period) : List Line :=
  ((revenueAgg st p).map (fun g =>
    { accountCode := g.1, debit := g.2, credit := 0
      description := "close revenue" : Line })) ++
  (if 0 < totalRevenueOf st p then
    [{ accountCode := "911", debit := 0, credit := totalRevenueOf st p
       description := "total revenue" : Line }]
  else [])

/-- Lines of the expense closing entry: credit each expense account by its
total, debit account 911 by the grand total (only when positive). -/
def expenseClosingLines (st : St) (p : Period) : List Line :=
  ((expenseAgg st p).map (fun g =>
    { accountCode := g.1, debit := 0, credit := g.2
      description := "close expense" : Line })) ++
  (if 0 < totalExpenseOf st p then
    [{ accountCode := "911", debit := totalExpenseOf st p, credit := 0
       description := "total expense" : Line }]
  else [])

/-- Lines of the profit roll-up entry: net profit moves from 911 into 421,
direction depending on its sign. -/
def profitClosingLines (netProfit : ℚ) : List Line :=
  if 0 < netProfit then
    [ { accountCode := "911", debit := netProfit, credit := 0
        description := "close net profit" }
    , { accountCode := "421", debit := 0, credit := netProfit
        description := "retained earnings" } ]
  else if netProfit < 0 then
    [ { accountCode := "421", debit := |netProfit|, credit := 0
        description := "close net loss" }
    , { accountCode := "911", debit := 0, credit := |netProfit|
        description := "unallocated loss" } ]
  else []

/-- A closing journal entry as close-period builds it: dated at the period
end, entry type `closing`, posted. -/
def mkClosingEntry (entryId refNo memo : String) (p : Period) (now : ℤ)
    (ls : List Line) : JournalEntry :=
  { id := entryId
    referenceNo := refNo
    date := p.endDate
    postingDate := now
    memo := memo
    entryType := "closing"
    lines := ls
    sourceId := none
    sourceType := some "period_closing"
    status := "posted" }

/-- The up-to-three closing entries close-period persists for a period:
revenue roll-up, expense roll-up, profit roll-up, each only when it has
lines. -/
def closingEntriesFor (st : St) (p : Period) (now : ℤ)
    (idR idE idP refR refE refP : String) : List JournalEntry :=
  let netProfit := totalRevenueOf st p - totalExpenseOf st p
  (if (revenueClosingLines st p).isEmpty then [] else
    [mkClosingEntry idR refR "close revenue" p now (revenueClosingLines st p)]) ++
  (if (expenseClosingLines st p).isEmpty then [] else
    [mkClosingEntry idE refE "close expense" p now (expenseClosingLines st p)]) ++
  (if (profitClosingLines netProfit).isEmpty then [] else
    [mkClosingEntry idP refP "close net profit or loss" p now
      (profitClosingLines netProfit)])

structure CloseSummary where
  totalRevenue : ℚ
  totalExpense : ℚ
  netProfit : ℚ
  deriving Repr, DecidableEq

inductive CloseResp where
  | badRequest (msg : String)
  | notFound
  | alreadyClosed
  | ok (summary : CloseSummary) (closingEntries : List JournalEntry)
  deriving Repr, DecidableEq

/-- `POST /api/accounting/close-period`
(`src/routes/accounting.js` lines 3127-3386).  Session-wrapped: error
paths abort with the state unchanged.  `idR/idE/idP` and `refR/refE/refP`
stand for the fresh ids and generated reference numbers of the up to
three closing entries; `now` for `new Date()`. -/
def closePeriod (st : St) (periodId : Option String) (lockDate : Option ℤ)
    (now : ℤ) (userId : Option String)
    (idR idE idP refR refE refP : String) : CloseResp × St :=
  match periodId with
  | none => (.badRequest "missing periodId", st)
  | some pid =>
    match st.periods.find? (fun p => p.id = pid) with
    | none => (.notFound, st)
    | some period =>
      if period.status = "closed" then
        (.alreadyClosed, st)
      else
        let lockDateObj := lockDate.getD period.endDate
        let netProfit := totalRevenueOf st period - totalExpenseOf st period
        let closingEntries := closingEntriesFor st period now idR idE idP refR refE refP
        let period2 : Period :=
          { period with
            lockDate := some lockDateObj
            status := "closed"
            closedAt := some now
            closedBy := userId }
        (.ok { totalRevenue := totalRevenueOf st period
               totalExpense := totalExpenseOf st period
               netProfit := netProfit } closingEntries,
          { st with
            entries := st.entries ++ closingEntries
            periods := st.periods.map (fun p => if p.id = pid then period2 else p) })

/-- One element of the `productsUpdated` list returned by
`postCOGSEntry`. -/
structure ProdUpdate where
  productId : String
  productName : String
  quantitySold : ℚ
  averageCost : ℚ
  itemCOGS : ℚ
  newStock : ℚ
  deriving Repr, DecidableEq

/-- The per-item loop of `postCOGSEntry` (`src/routes/orders.js` lines
498-540): accumulate total COGS at moving-average cost, floor stock at
zero, record one update per found product with positive quantity. -/
def cogsLoop : List OrderItem → List Product → ℚ × List ProdUpdate × List Product
  | [], ps => (0, [], ps)
  | item :: rest, ps =>
    if item.quantity ≤ 0 then cogsLoop rest ps
    else
      match ps.find? (fun q => q.id = item.product) with
      | none => cogsLoop rest ps
      | some product =>
        let averageCost := jsOrQ product.averageCost (jsOrQ product.price 0)
        let currentStock := jsOrQ product.stock 0
        let itemCOGS := averageCost * item.quantity
        let newStock := max 0 (currentStock - item.quantity)
        let ps2 := ps.map (fun q =>
          if q.id = item.product then { q with stock := some newStock } else q)
        let r := cogsLoop rest ps2
        (itemCOGS + r.1,
          { productId := item.product
            productName := product.name
            quantitySold := item.quantity
            averageCost := averageCost
            itemCOGS := itemCOGS
            newStock := newStock } :: r.2.1,
          r.2.2)

/-- The guard predicate of `postCOGSEntry`: a posted entry with this
order as source carrying a line on account 632. -/
def isCOGSEntryFor (orderId : String) (e : JournalEntry) : Bool :=
  e.sourceId = some orderId ∧ e.sourceType = some "order" ∧
  e.lines.any (fun l => l.accountCode = "632") ∧ e.status = "posted"

/-- The existing-entry lookup of `postCOGSEntry`. -/
def findCOGSEntry (entries : List JournalEntry) (orderId : String) :
    Option JournalEntry :=
  entries.find? (isCOGSEntryFor orderId)

/-- `postCOGSEntry(orderId, userId, session)` (`src/routes/orders.js`
lines 464-617) as invoked by `POST /api/orders/post-cogs`, which wraps it
in a session and aborts on any thrown error — so error results leave the
state unchanged.  `newId` stands for the fresh entry id and `refNo` for
the generated `COGS-...` reference number. -/
def postCOGSEntry (st : St) (orderId : String) (newId refNo : String)
    (now : ℤ) : Except String (JournalEntry × List ProdUpdate) × St :=
  match st.orders.find? (fun o => o.id = orderId) with
  | none => (.error "order not found", st)
  | some order =>
    match findCOGSEntry st.entries orderId with
    | some existingCOGSEntry => (.ok (existingCOGSEntry, []), st)
    | none =>
      if order.orderItems.isEmpty then (.error "order has no items", st)
      else
        let r := cogsLoop order.orderItems st.products
        let totalCOGS := r.1
        if totalCOGS ≤ 0 then (.error "total COGS must be positive", st)
        else if ¬ (st.accounts.any (fun a => a.code = "632") ∧
            st.accounts.any (fun a => a.code = "156")) then
          (.error "account 632 or 156 missing", st)
        else if st.entries.any (fun e => e.referenceNo = refNo) then
          (.error "duplicate reference number", st)
        else
          let lines : List Line :=
            [ { accountCode := "632", debit := totalCOGS, credit := 0
                description := "cost of goods sold" }
            , { accountCode := "156", debit := 0, credit := totalCOGS
                description := "inventory issue" } ]
          if tol < |linesDebit lines - linesCredit lines| then
            (.error "entry not balanced", st)
          else
            let journalEntry : JournalEntry :=
              { id := newId
                referenceNo := refNo
                date := order.createdAt
                postingDate := now
                memo := "cost of goods sold for order"
                entryType := "inventory"
                lines := lines
                sourceId := some orderId
                sourceType := some "order"
                status := "posted" }
            (.ok (journalEntry, r.2.1),
              { st with
                products := r.2.2
                entries := st.entries ++ [journalEntry] })

/-- Payment methods for which the money is already in the bank account
(`['BankTransfer', 'Sepay', 'MoMo'].includes(order.paymentMethod)`). -/
def bankMethods : List String := ["BankTransfer", "Sepay", "MoMo"]

inductive SaleResult where
  | existing (e : JournalEntry)
  | deferred
  | created (e : JournalEntry) (receivable : Option Receivable)
  deriving Repr, DecidableEq

/-- `createReceivableFromOrder(order, journalEntry)`
(`src/scripts/seed-accounts.js` lines 235-282): reuse an existing
receivable of the order, otherwise due date is the ship date
(`order.updatedAt || order.createdAt`) plus 7 days for COD, the order
date plus 30 days otherwise. -/
def createReceivableFromOrder (receivables : List Receivable) (order : Order)
    (entry : JournalEntry) (newRecvId : String) (customer : String) :
    Receivable × List Receivable :=
  match receivables.find? (fun r => r.orderRef = some order.id) with
  | some existingReceivable => (existingReceivable, receivables)
  | none =>
    let dueDate :=
      if order.paymentMethod = "COD" then
        (order.updatedAt.getD order.createdAt) + 7
      else
        order.createdAt + 30
    let receivable : Receivable :=
      { id := newRecvId
        journalEntry := entry.id
        customer := customer
        orderRef := some order.id
        originalAmount := order.finalTotal
        remainingAmount := order.finalTotal
        paymentStatus := "unpaid"
        dueDate := dueDate
        invoiceDate := order.createdAt }
    (receivable, receivables ++ [receivable])

/-- `createSaleJournalEntry(order, userId)`
(`src/scripts/seed-accounts.js` lines 100-230): skip if an entry with this
order as source exists; defer COD orders that are not yet
shipped/delivered; otherwise post debit 131 (COD shipped/delivered, with
a Receivable when the order has a user) or debit 1121 (bank-transfer
class), credit 511, for the order total. -/
def createSaleJournalEntry (entries : List JournalEntry)
    (receivables : List Receivable) (order : Order)
    (refNo newEntryId newRecvId : String) (now : ℤ) :
    SaleResult × List JournalEntry × List Receivable :=
  let isBankTransfer := bankMethods.contains order.paymentMethod
  let isCOD := order.paymentMethod = "COD"
  match entries.find? (fun e =>
      e.sourceId = some order.id ∧ e.sourceType = some "order") with
  | some existingEntry => (.existing existingEntry, entries, receivables)
  | none =>
    if isCOD ∧ ¬ (order.status = "shipped" ∨ order.status = "delivered") then
      (.deferred, entries, receivables)
    else
      let codShipped := isCOD ∧ (order.status = "shipped" ∨ order.status = "delivered")
      let lines : List Line :=
        if codShipped then
          [ { accountCode := "131", debit := order.finalTotal, credit := 0
              description := "COD receivable" }
          , { accountCode := "511", debit := 0, credit := order.finalTotal
              description := "COD sales revenue" } ]
        else if isBankTransfer then
          [ { accountCode := "1121", debit := order.finalTotal, credit := 0
              description := "bank transfer sale" }
          , { accountCode := "511", debit := 0, credit := order.finalTotal
              description := "sales revenue" } ]
        else
          [ { accountCode := "131", debit := order.finalTotal, credit := 0
              description := "receivable" }
          , { accountCode := "511", debit := 0, credit := order.finalTotal
              description := "sales revenue" } ]
      let isCredit := codShipped
      let journalEntry : JournalEntry :=
        { id := newEntryId
          referenceNo := refNo
          date := order.createdAt
          postingDate := now
          memo := "sale entry for order"
          entryType := "sale"
          lines := lines
          sourceId := some order.id
          sourceType := some "order"
          status := "posted" }
      let entries2 := entries ++ [journalEntry]
      if isCredit then
        match order.user with
        | some customer =>
          let r := createReceivableFromOrder receivables order journalEntry newRecvId customer
          (.created journalEntry (some r.1), entries2, r.2)
        | none => (.created journalEntry none, entries2, receivables)
      else (.created journalEntry none, entries2, receivables)

/-- One row of a fixed asset depreciation history. -/
structure DepRow where
  month : String
  amount : ℚ
  journalEntryRef : String
  deriving Repr, DecidableEq

/-- A `FixedAsset` document.  The model file is not in the repository;
the fields are the ones the fixed-asset and depreciation routes
read/assign, `monthlyDepreciation` being the optional stored straight-line
monthly amount (spec: straight-line is `originalCost / usefulLife`, which
is also the route fallback). -/
structure FixedAsset where
  id : String
  assetCode : Option String
  name : String
  originalCost : ℚ
  usefulLife : ℚ
  monthlyDepreciation : Option ℚ
  accumulatedDepreciation : ℚ
  bookValue : ℚ
  depreciationHistory : List DepRow
  status : String
  deriving Repr, DecidableEq

/-- The deterministic depreciation reference number
`DEP-${targetMonth}-${asset.assetCode || asset._id.toString().slice(-6)}`. -/
def depRefNo (targetMonth : String) (a : FixedAsset) : String :=
  "DEP-" ++ targetMonth ++ "-" ++ jsOrS a.assetCode (a.id.takeRight 6)

/-- The per-asset body of `POST /api/accounting/depreciation/calculate`
(`src/routes/accounting.js` lines 2175-2257).  `none` means the asset is
skipped (`continue`), `some` carries the posted entry and the updated
asset.  `existingRefNos` are the reference numbers already present in the
journal; `monthStart` stands for `new Date(targetMonth + "-01")`. -/
def depreciateAsset (targetMonth : String) (existingRefNos : List String)
    (newEntryId : String) (monthStart now : ℤ) (a : FixedAsset) :
    Option (JournalEntry × FixedAsset) :=
  if a.depreciationHistory.any (fun d => d.month = targetMonth) then none
  else if a.originalCost ≤ a.accumulatedDepreciation then none
  else
    let monthlyDepreciation := jsOrQ a.monthlyDepreciation (a.originalCost / a.usefulLife)
    let remainingValue := a.originalCost - a.accumulatedDepreciation
    let depreciationAmount := min monthlyDepreciation remainingValue
    if depreciationAmount ≤ 0 then none
    else if existingRefNos.contains (depRefNo targetMonth a) then none
    else
      let lines : List Line :=
        [ { accountCode := "642", debit := depreciationAmount, credit := 0
            description := "depreciation expense" }
        , { accountCode := "214", debit := 0, credit := depreciationAmount
            description := "accumulated depreciation" } ]
      let journalEntry : JournalEntry :=
        { id := newEntryId
          referenceNo := depRefNo targetMonth a
          date := monthStart
          postingDate := now
          memo := "monthly depreciation"
          entryType := "depreciation"
          lines := lines
          sourceId := some a.id
          sourceType := some "depreciation"
          status := "posted" }
      let a2 : FixedAsset :=
        { a with
          accumulatedDepreciation := a.accumulatedDepreciation + depreciationAmount
          bookValue := a.originalCost - (a.accumulatedDepreciation + depreciationAmount)
          depreciationHistory := a.depreciationHistory ++
            [{ month := targetMonth, amount := depreciationAmount
               journalEntryRef := newEntryId }] }
      some (journalEntry, a2)

/-- The phone validation `/^[0-9]{10,11}$/`. -/
def phoneOk (s : String) : Bool :=
  (s.length == 10 || s.length == 11) && strAllDigit s

/-- One row of the `categoryMapping` lookup table of `POST /post-entry`
(`src/routes/accounting.js` lines 1239-1301).  Income/expense sides carry
(account code, display name). -/
structure CatMap where
  income : Option (String × String)
  expense : Option (String × String)
  specialCreditAccount : Option String
  isSalary : Bool
  deriving Repr, DecidableEq

/-- The `categoryMapping` object.  The source object literal lists the
key `'Khác'` twice ({income: 711} in the income block, {expense: 811} in
the expense block): in JavaScript the later entry wins, so `'Khác'` maps
to income `null` / expense 811, and that same row is the fallback for
unknown categories. -/
def categoryMapping (c : String) : CatMap :=
  if c = "Bán hàng" then ⟨some ("511", "Doanh thu bán hàng"), none, none, false⟩
  else if c = "Dịch vụ" then ⟨some ("511", "Doanh thu dịch vụ"), none, none, false⟩
  else if c = "Đầu tư" then ⟨some ("711", "Thu nhập khác"), none, none, false⟩
  else if c = "Nguyên vật liệu" then ⟨none, some ("156", "Hàng hóa"), none, false⟩
  else if c = "Lương nhân viên" then
    ⟨none, some ("642", "Chi phí quản lý doanh nghiệp"), some "334", true⟩
  else if c = "Marketing" then ⟨none, some ("641", "Chi phí bán hàng"), none, false⟩
  else if c = "Vận chuyển" then
    ⟨none, some ("642", "Chi phí quản lý doanh nghiệp"), none, false⟩
  else if c = "Điện nước" then
    ⟨none, some ("642", "Chi phí quản lý doanh nghiệp"), none, false⟩
  else if c = "Thuê mặt bằng" then
    ⟨none, some ("642", "Chi phí quản lý doanh nghiệp"), none, false⟩
  else if c = "Bảo trì" then
    ⟨none, some ("642", "Chi phí quản lý doanh nghiệp"), none, false⟩
  else ⟨none, some ("811", "Chi phí khác"), none, false⟩

/-- The `accountCodeDefinitions` auto-provisioning allow-list of
`POST /post-entry` (`src/routes/accounting.js` lines 1411-1424). -/
def accountCodeDefinitions (code : String) : Option Account :=
  if code = "111" then some ⟨"111", "Tiền mặt", "asset", "active"⟩
  else if code = "1121" then some ⟨"1121", "Tiền gửi ngân hàng", "asset", "active"⟩
  else if code = "131" then some ⟨"131", "Phải thu khách hàng", "asset", "active"⟩
  else if code = "156" then some ⟨"156", "Hàng hóa", "asset", "active"⟩
  else if code = "331" then some ⟨"331", "Phải trả người bán", "liability", "active"⟩
  else if code = "334" then some ⟨"334", "Phải trả người lao động", "liability", "active"⟩
  else if code = "3387" then some ⟨"3387", "Doanh thu chưa thực hiện", "liability", "active"⟩
  else if code = "511" then some ⟨"511", "Doanh thu bán hàng", "revenue", "active"⟩
  else if code = "641" then some ⟨"641", "Chi phí bán hàng", "expense", "active"⟩
  else if code = "642" then some ⟨"642", "Chi phí quản lý doanh nghiệp", "expense", "active"⟩
  else if code = "711" then some ⟨"711", "Thu nhập khác", "revenue", "active"⟩
  else if code = "811" then some ⟨"811", "Chi phí khác", "expense", "active"⟩
  else none

/-- `${trimmedName.toLowerCase().replace(/\s+/g, '.')}@partner.local`
(runs of blanks collapse in the source regex; single blanks in practice). -/
def partnerEmailBase (trimmedName : String) : String :=
  strDotSpaces (strToLower trimmedName) ++ "@partner.local"

/-- The retry email with timestamp suffix. -/
def partnerEmailRetry (trimmedName : String) (now : ℤ) : String :=
  strDotSpaces (strToLower trimmedName) ++ "-" ++ toString now ++ "@partner.local"

/-- Case-insensitive whole-name match
(`name: { $regex: new RegExp('^name$', 'i') }`). -/
def nameMatches (a b : String) : Bool := strToLower a == strToLower b

/-- `findOrCreateDefaultPartner(type, session)`
(`src/routes/accounting.js` lines 854-901). -/
def findOrCreateDefaultPartner (users : List User) (typ : String)
    (newPartnerId : String) : Except String (User × List User) :=
  let defaultName :=
    if typ = "income" then "Partner_Default_Customer" else "Partner_Default_Supplier"
  let defaultEmail :=
    if typ = "income" then "partner.default.customer@partner.local"
    else "partner.default.supplier@partner.local"
  let role := if typ = "income" then "customer" else "supplier"
  match users.find? (fun u => u.email = defaultEmail ∧ u.role = role) with
  | some defaultPartner => .ok (defaultPartner, users)
  | none =>
    let defaultPhone := if typ = "income" then "0900000000" else "0900000001"
    -- a save that violates the phone unique index raises a duplicate
    -- error; the handler re-fetches by email and fails when still absent
    if users.any (fun u => u.phone = some defaultPhone) then
      .error "cannot create or find default partner"
    else
      let defaultPartner : User :=
        { id := newPartnerId, name := defaultName, email := defaultEmail
          phone := some defaultPhone, role := role }
      .ok (defaultPartner, users ++ [defaultPartner])

/-- Phone backfill on a partner found by name/email: update the stored
phone when the form supplied a different one. -/
def backfillPhone (users : List User) (partner : User)
    (partnerPhone : Option String) : User × List User :=
  match partnerPhone with
  | some ph =>
    if strTrim ph ≠ "" ∧ partner.phone ≠ some (strTrim ph) then
      let p2 := { partner with phone := some (strTrim ph) }
      (p2, users.map (fun u => if u.id = partner.id then p2 else u))
    else (partner, users)
  | none => (partner, users)

/-- The creation/retry loop of `findOrCreatePartner`
(`src/routes/accounting.js` lines 967-1091), with `maxRetries = 5` as
fuel.  Uniqueness violations at save time (duplicate email was
pre-checked; a duplicate phone remains possible) surface as the retry
with a timestamp-suffixed email; exhausted retries fall back to the
default partner. -/
def partnerCreateLoop (trimmedName : String) (partnerPhone : Option String)
    (typ role : String) (newPartnerId : String) (now : ℤ) :
    Nat → String → List User → Except String (User × List User)
  | 0, _, users => findOrCreateDefaultPartner users typ newPartnerId
  | fuel + 1, email, users =>
    let phoneGiven := strTrim (partnerPhone.getD "") ≠ ""
    let retry := partnerEmailRetry trimmedName now
    if phoneGiven then
      let trimmedPhone := strTrim (partnerPhone.getD "")
      match users.find? (fun u => u.phone = some trimmedPhone) with
      | some existingPhoneUser =>
        if existingPhoneUser.role = role then .ok (existingPhoneUser, users)
        else partnerCreateLoop trimmedName partnerPhone typ role newPartnerId now fuel retry users
      | none =>
        match users.find? (fun u => u.email = email) with
        | some existingUser =>
          if existingUser.role = role then
            .ok (backfillPhone users existingUser partnerPhone)
          else partnerCreateLoop trimmedName partnerPhone typ role newPartnerId now fuel retry users
        | none =>
          let partner : User :=
            { id := newPartnerId, name := trimmedName, email := email
              phone := some trimmedPhone, role := role }
          .ok (partner, users ++ [partner])
    else
      let finalPhone := "0987654321"
      match users.find? (fun u => u.email = email) with
      | some existingUser =>
        if existingUser.role = role then .ok (existingUser, users)
        else partnerCreateLoop trimmedName partnerPhone typ role newPartnerId now fuel retry users
      | none =>
        -- save with the default phone; a phone unique-index violation is
        -- the duplicate error handled by retrying with a new email
        if users.any (fun u => u.phone = some finalPhone) then
          partnerCreateLoop trimmedName partnerPhone typ role newPartnerId now fuel retry users
        else
          let partner : User :=
            { id := newPartnerId, name := trimmedName, email := email
              phone := some finalPhone, role := role }
          .ok (partner, users ++ [partner])

/-- `findOrCreatePartner(partnerName, partnerPhone, type, session)`
(`src/routes/accounting.js` lines 907-1101). -/
def findOrCreatePartner (users : List User) (partnerName : String)
    (partnerPhone : Option String) (typ : String) (newPartnerId : String)
    (now : ℤ) : Except String (User × List User) :=
  if strTrim partnerName = "" then .error "partner name must not be empty"
  else
    let trimmedName := strTrim partnerName
    let role := if typ = "income" then "customer" else "supplier"
    match users.find? (fun u => nameMatches u.name trimmedName ∧ u.role = role) with
    | some partner => .ok (backfillPhone users partner partnerPhone)
    | none =>
      partnerCreateLoop trimmedName partnerPhone typ role newPartnerId now 5
        (partnerEmailBase trimmedName) users

/-- Request body of `POST /api/accounting/post-entry`. -/
structure PEReq where
  amount : Option ℚ
  category : String
  description : String
  date : Option ℤ
  reference : Option String
  paymentStatus : Option String
  type : String
  partnerName : Option String
  partnerPhone : Option String
  dueDate : Option ℤ
  journalEntryId : Option String
  deriving Repr, DecidableEq

/-- Fresh ids and generated reference number for one post-entry call. -/
structure PEIds where
  newEntryId : String
  newPartnerId : String
  newDebtId : String
  genRef : String
  deriving Repr, DecidableEq

inductive PEErr where
  | badRequest (msg : String)
  | notFoundEntry
  | serverError (msg : String)
  deriving Repr, DecidableEq

inductive PEResp where
  | err (e : PEErr)
  | ok (e : JournalEntry)
  deriving Repr, DecidableEq

/-- `billType` derivation for the payable branch of post-entry. -/
def billTypeFor (category : String) : String :=
  if category = "Nguyên vật liệu" ∨ category = "Hàng hóa" then "purchase"
  else if category = "Dịch vụ" ∨ category = "Marketing" ∨ category = "Vận chuyển" then
    "service"
  else "expense"

/-- `ensureAccountExists` of post-entry restricted to the allow-list:
`none` when the code is absent and has no auto definition. -/
def ensureAccountExists (accs : List Account) (code : String) :
    Option (List Account) :=
  if accs.any (fun a => a.code = code) then some accs
  else (accountCodeDefinitions code).map (fun a => accs ++ [a])

/-- The credit-account decision table of post-entry. -/
def peCreditAccountCode (r : PEReq) (accPair : String × String)
    (mapping : CatMap) : String :=
  if r.type = "income" then
    if r.paymentStatus = some "paid" then
      if r.category = "Bán hàng" ∨ r.category = "Dịch vụ" then "3387" else accPair.1
    else accPair.1
  else
    if mapping.isSalary ∧ r.category = "Lương nhân viên" then
      jsOrS mapping.specialCreditAccount "334"
    else if r.paymentStatus = some "paid" then "1121"
    else "331"

/-- The debit-account decision table of post-entry. -/
def peDebitAccountCode (r : PEReq) (accPair : String × String) : String :=
  if r.type = "income" then
    if r.paymentStatus = some "paid" then "1121" else "131"
  else accPair.1

/-- The phone-format validation guard of post-entry: a supplied non-blank
phone that does not match `/^[0-9]{10,11}$/`. -/
def peBadPhone (r : PEReq) : Bool :=
  strTrim (r.partnerPhone.getD "") ≠ "" && ! phoneOk (strTrim (r.partnerPhone.getD ""))

/-- The two lines post-entry builds for a validated request
(`src/routes/accounting.js` lines 1455-1526). -/
def peLines (r : PEReq) (accPair : String × String) (mapping : CatMap) :
    List Line :=
  let amountNum := r.amount.getD 0
  let creditAccountCode := peCreditAccountCode r accPair mapping
  let debitAccountCode := peDebitAccountCode r accPair
  let creditDescription :=
    if creditAccountCode = "3387" then
      "Doanh thu chưa thực hiện - " ++ r.category
    else accPair.2 ++ " - " ++ r.category
  if r.type = "income" then
    [ { accountCode := debitAccountCode, debit := amountNum, credit := 0
        description := r.description }
    , { accountCode := creditAccountCode, debit := 0, credit := amountNum
        description := creditDescription } ]
  else
    [ { accountCode := debitAccountCode, debit := amountNum, credit := 0
        description := accPair.2 ++ " - " ++ r.category }
    , { accountCode := creditAccountCode, debit := 0, credit := amountNum
        description := r.description } ]

/-- The journal entry post-entry saves: an in-place update when
`journalEntryId` named an existing entry, a fresh `posted` one else. -/
def peEntry (r : PEReq) (ids : PEIds) (now : ℤ) (referenceNo : String)
    (ls : List Line) (existingEntry : Option JournalEntry) : JournalEntry :=
  let entryType := if r.type = "income" then "receipt" else "payment"
  match existingEntry with
  | some e =>
    { e with
      referenceNo := referenceNo
      date := r.date.getD e.date
      memo := r.description
      entryType := entryType
      lines := ls }
  | none =>
    { id := ids.newEntryId
      referenceNo := referenceNo
      date := r.date.getD 0
      postingDate := now
      memo := r.description
      entryType := entryType
      lines := ls
      sourceId := none
      sourceType := some "MANUAL"
      status := "posted" }

/-- The session state after post-entry saved the entry (when editing,
the entry's previous Receivable/Payable records are deleted first). -/
def peSessionSt (st : St) (accs2 : List Account) (entry : JournalEntry)
    (existingEntry : Option JournalEntry) : St :=
  let entries1 :=
    match existingEntry with
    | some e => st.entries.map (fun x => if x.id = e.id then entry else x)
    | none => st.entries ++ [entry]
  let recvs1 :=
    match existingEntry with
    | some _ => st.receivables.filter (fun x => x.journalEntry ≠ entry.id)
    | none => st.receivables
  let pays1 :=
    match existingEntry with
    | some _ => st.payables.filter (fun x => x.journalEntry ≠ entry.id)
    | none => st.payables
  { st with accounts := accs2, entries := entries1
            receivables := recvs1, payables := pays1 }

/-- The debt phase of post-entry: find or create the partner (errors of
the primary lookup fall back to the default partner; a failing fallback
aborts), then save the `Receivable`/`Payable`.  `debtSaveFails` injects
a failure of that save, whose catch block aborts the transaction. -/
def peDebtPhase (stS : St) (r : PEReq) (ids : PEIds) (now : ℤ)
    (debtSaveFails : Bool) (entry : JournalEntry)
    (debitAccountCode creditAccountCode trimmedPartnerName : String)
    (trimmedPartnerPhone : Option String) : Except PEErr (JournalEntry × St) :=
  let amountNum := r.amount.getD 0
  match (match findOrCreatePartner stS.users trimmedPartnerName
        trimmedPartnerPhone r.type ids.newPartnerId now with
    | .ok res => Except.ok res
    | .error _ =>
      findOrCreateDefaultPartner stS.users r.type ids.newPartnerId) with
  | .error m => .error (.serverError m)
  | .ok (partner, users2) =>
    let stU := { stS with users := users2 }
    if r.type = "income" ∧ debitAccountCode = "131" then
      if debtSaveFails then .error (.serverError "error saving receivable")
      else
        let receivable : Receivable :=
          { id := ids.newDebtId
            journalEntry := entry.id
            customer := partner.id
            orderRef := none
            originalAmount := amountNum
            remainingAmount := amountNum
            paymentStatus := "unpaid"
            dueDate := r.dueDate.getD 0
            invoiceDate := r.date.getD 0 }
        .ok (entry, { stU with
          receivables := stU.receivables ++ [receivable] })
    else if r.type = "expense" ∧ creditAccountCode = "331" then
      if debtSaveFails then .error (.serverError "error saving payable")
      else
        let payable : Payable :=
          { id := ids.newDebtId
            journalEntry := entry.id
            supplier := partner.id
            billType := billTypeFor r.category
            originalAmount := amountNum
            remainingAmount := amountNum
            paymentStatus := "unpaid"
            dueDate := r.dueDate.getD 0
            invoiceDate := r.date.getD 0 }
        .ok (entry, { stU with
          payables := stU.payables ++ [payable] })
    else
      .ok (entry, stU)

/-- `isDebtTransaction` of post-entry. -/
def peIsDebt (r : PEReq) (creditAccountCode : String) : Bool :=
  if r.type = "income" then r.paymentStatus ≠ some "paid"
  else r.paymentStatus = some "unpaid" ∧ creditAccountCode = "331"

/-- `trimmedPartnerName` of post-entry (empty unless unpaid). -/
def peTrimmedPartnerName (r : PEReq) : String :=
  if r.paymentStatus = some "unpaid" then strTrim (r.partnerName.getD "") else ""

/-- `referenceNo || existing.referenceNo || generated` of post-entry. -/
def peReferenceNo (r : PEReq) (ids : PEIds) (ex : Option JournalEntry) :
    String :=
  jsOrS r.reference
    (match ex with | some e => e.referenceNo | none => ids.genRef)

/-- The duplicate-reference check of post-entry only runs when the
reference changes (or the entry is fresh). -/
def peDupRelevant (r : PEReq) (ids : PEIds) (ex : Option JournalEntry) :
    Bool :=
  match ex with
  | some e => e.referenceNo ≠ peReferenceNo r ids ex
  | none => true

/-- The posting tail of post-entry once the category mapping, the two
accounts and the optional existing entry are resolved: duplicate check,
line building, balance check, entry save and debt phase.  The `none`
passed for the partner phone reflects the source's `let` shadowing:
the outer `trimmedPartnerPhone` handed to `findOrCreatePartner` stays
null because the validation block redeclares it. -/
def pePost (st : St) (r : PEReq) (ids : PEIds) (now : ℤ)
    (debtSaveFails : Bool) (accPair : String × String) (accs2 : List Account)
    (existingEntry : Option JournalEntry) : Except PEErr (JournalEntry × St) :=
  let mapping := categoryMapping r.category
  let creditAccountCode := peCreditAccountCode r accPair mapping
  let debitAccountCode := peDebitAccountCode r accPair
  let referenceNo := peReferenceNo r ids existingEntry
  if peDupRelevant r ids existingEntry ∧
      st.entries.any (fun e => e.referenceNo = referenceNo) then
    .error (.badRequest "duplicate reference number")
  else
    let lines := peLines r accPair mapping
    if tol < |linesDebit lines - linesCredit lines| then
      .error (.badRequest "entry not balanced")
    else
      let entry := peEntry r ids now referenceNo lines existingEntry
      let stS := peSessionSt st accs2 entry existingEntry
      if peIsDebt r creditAccountCode ∧
          (r.paymentStatus = some "unpaid" ∧ peTrimmedPartnerName r ≠ "" ∧
           r.dueDate.isSome) then
        peDebtPhase stS r ids now debtSaveFails entry
          debitAccountCode creditAccountCode (peTrimmedPartnerName r) none
      else
        .ok (entry, stS)

/-- The body of `POST /api/accounting/post-entry`
(`src/routes/accounting.js` lines 1113-1869) inside its session: the
session copy of the state is threaded through, `.error` is an error
response issued after `session.abortTransaction()`.  `debtSaveFails`
injects a failure of the `Receivable`/`Payable` save, whose catch block
aborts the whole transaction. -/
def postEntryCore (st : St) (r : PEReq) (ids : PEIds) (now : ℤ)
    (debtSaveFails : Bool) : Except PEErr (JournalEntry × St) :=
  -- required fields; a missing or zero amount is falsy in JavaScript
  if jsOrQ r.amount 0 = 0 ∨ r.category = "" ∨ r.description = "" ∨
      r.date.isNone ∨ r.type = "" then
    .error (.badRequest "missing required fields")
  else if r.type ≠ "income" ∧ r.type ≠ "expense" then
    .error (.badRequest "type must be income or expense")
  else if r.amount.getD 0 ≤ 0 then
    .error (.badRequest "amount must be positive")
  else if r.paymentStatus = some "unpaid" ∧ strTrim (r.partnerName.getD "") = "" then
    .error (.badRequest "partnerName required when unpaid")
  else if r.paymentStatus = some "unpaid" ∧ peBadPhone r then
    .error (.badRequest "phone must have 10-11 digits")
  else if r.paymentStatus = some "unpaid" ∧ r.dueDate.isNone then
    .error (.badRequest "dueDate required when unpaid")
  else
    let mapping := categoryMapping r.category
    match if r.type = "income" then mapping.income else mapping.expense with
    | none => .error (.badRequest "category invalid for this type")
    | some accPair =>
      let creditAccountCode := peCreditAccountCode r accPair mapping
      let debitAccountCode := peDebitAccountCode r accPair
      match ensureAccountExists st.accounts debitAccountCode with
      | none => .error (.badRequest "account missing and not auto-definable")
      | some accs1 =>
        match ensureAccountExists accs1 creditAccountCode with
        | none => .error (.badRequest "account missing and not auto-definable")
        | some accs2 =>
          match ((match r.journalEntryId with
                 | some jid =>
                   (match st.entries.find? (fun e => e.id = jid) with
                    | none => Except.error PEErr.notFoundEntry
                    | some e => Except.ok (some e))
                 | none => Except.ok none) :
                Except PEErr (Option JournalEntry)) with
          | .error e => .error e
          | .ok existingEntry =>
            pePost st r ids now debtSaveFails accPair accs2 existingEntry

/-- `POST /api/accounting/post-entry`: commit the session on success,
abort it on any error — an error response leaves the stored state
exactly as it was. -/
def postEntry (st : St) (r : PEReq) (ids : PEIds) (now : ℤ)
    (debtSaveFails : Bool) : PEResp × St :=
  match postEntryCore st r ids now debtSaveFails with
  | .error e => (.err e, st)
  | .ok res => (.ok res.1, res.2)

/-- Fresh ids for one `POST /transactions` call. -/
structure TxIds where
  newTxnId : String
  newUserId : String
  newEntryId : String
  newDebtId : String
  deriving Repr, DecidableEq

inductive TxnCreateResp where
  | badRequest (msg : String)
  | created (t : Txn)
  deriving Repr, DecidableEq

/-- `description.split('-')[0]?.trim() || description.split(' ')[0] ||
fallbackName`. -/
def defaultNameFromDescription (d fallbackName : String) : String :=
  let first := strTrim (firstSegment '-' d)
  if first ≠ "" then first
  else
    let tok := firstSegment ' ' d
    if tok ≠ "" then tok else fallbackName

/-- `POST /api/accounting/transactions`
(`src/routes/accounting.js` lines 2338-2613).  Unlike post-entry this
handler opens NO session: the transaction, the journal entry, the
partner user and the debt record are saved one by one against the live
state, and the whole debt-creation block sits in a `try/catch` that only
logs (`// Không throw error, chỉ log để transaction vẫn được tạo`) — a
failure inside it leaves every earlier write committed and still answers
201.  `debtSaveFails` injects a failure of the `Receivable`/`Payable`
save. -/
def postTransactions (st : St) (type : Option String) (amount : Option ℚ)
    (description : Option String) (category : Option String)
    (date : Option ℤ) (reference : Option String)
    (paymentStatus : Option String) (ids : TxIds) (now : ℤ)
    (debtSaveFails : Bool) : TxnCreateResp × St :=
  if type.getD "" = "" ∨ jsOrQ amount 0 = 0 ∨ description.getD "" = "" ∨
      category.getD "" = "" ∨ date.isNone then
    (.badRequest "missing required fields", st)
  else if type.getD "" ≠ "income" ∧ type.getD "" ≠ "expense" then
    (.badRequest "invalid type", st)
  else if amount.getD 0 ≤ 0 then
    (.badRequest "amount must be positive", st)
  else
    let ty := type.getD ""
    let amt := amount.getD 0
    let desc := description.getD ""
    let txn : Txn :=
      { id := ids.newTxnId
        type := ty
        amount := amt
        description := desc
        category := category.getD ""
        date := date.getD 0
        reference := reference.getD ""
        paymentStatus := paymentStatus.getD "paid" }
    let st1 := { st with transactions := st.transactions ++ [txn] }
    if paymentStatus ≠ some "unpaid" then (.created txn, st1)
    else
      -- the debt-creation try block; every save below is unsessioned
      let role := if ty = "income" then "customer" else "supplier"
      let fallbackName := if ty = "income" then "Khách hàng" else "Nhà cung cấp"
      let partnerPair : User × St :=
        match st1.users.find? (fun u => u.role = role) with
        | some u => (u, st1)
        | none =>
          let u : User :=
            { id := ids.newUserId
              name := defaultNameFromDescription desc fallbackName
              email := role ++ "-" ++ toString now ++ "@temp.com"
              phone := some (reference.getD "")
              role := role }
          (u, { st1 with users := st1.users ++ [u] })
      let partner := partnerPair.1
      let st2 := partnerPair.2
      let debtAccount :=
        if ty = "income" then
          match st2.accounts.find? (fun a => a.code = "131") with
          | some a => some a
          | none => st2.accounts.find? (fun a => a.accountType = "asset" ∧ a.status = "active")
        else
          match st2.accounts.find? (fun a => a.code = "331") with
          | some a => some a
          | none => st2.accounts.find? (fun a => a.accountType = "liability" ∧ a.status = "active")
      let counterpartAccount :=
        if ty = "income" then
          match st2.accounts.find? (fun a => a.code = "511") with
          | some a => some a
          | none => st2.accounts.find? (fun a => a.accountType = "revenue" ∧ a.status = "active")
        else
          match st2.accounts.find? (fun a => a.code = "632") with
          | some a => some a
          | none => st2.accounts.find? (fun a => a.accountType = "expense" ∧ a.status = "active")
      let refNo := jsOrS reference ("TXN-" ++ ids.newTxnId.takeRight 6)
      let mkTxnEntry : String → String → JournalEntry := fun debitCode creditCode =>
        { id := ids.newEntryId
          referenceNo := refNo
          date := date.getD 0
          postingDate := now
          memo := desc
          entryType := if ty = "income" then "receipt" else "payment"
          lines :=
            [ { accountCode := debitCode, debit := amt, credit := 0, description := desc }
            , { accountCode := creditCode, debit := 0, credit := amt, description := desc } ]
          sourceId := some txn.id
          sourceType := some "transaction"
          status := "posted" }
      let primaryEntry : Option JournalEntry :=
        match debtAccount, counterpartAccount with
        | some da, some ca =>
          some (if ty = "income" then mkTxnEntry da.code ca.code else mkTxnEntry ca.code da.code)
        | _, _ => none
      -- a duplicate reference number makes the save throw; the catch
      -- swallows it, leaving the transaction committed alone
      let jePair : Option JournalEntry × St :=
        match primaryEntry with
        | some je =>
          if st2.entries.any (fun e => e.referenceNo = refNo) then (none, st2)
          else (some je, { st2 with entries := st2.entries ++ [je] })
        | none => (none, st2)
      let je0 := jePair.1
      let st3 := jePair.2
      -- fallback: build a simple balanced entry from any two distinct accounts
      let fallbackEntry : Option JournalEntry × St :=
        match je0 with
        | some je => (some je, st3)
        | none =>
          let account1 : Option Account :=
            if ty = "income" then
              st3.accounts.find? (fun a => a.accountType = "asset" ∧ a.status = "active")
            else
              st3.accounts.find? (fun a => a.accountType = "liability" ∧ a.status = "active")
          let account2 : Option Account :=
            if ty = "income" then
              match st3.accounts.find? (fun a => a.accountType = "revenue" ∧ a.status = "active") with
              | some a => some a
              | none =>
                match st3.accounts.find? (fun a => a.accountType = "equity" ∧ a.status = "active") with
                | some a => some a
                | none => st3.accounts.find? (fun a => a.status = "active")
            else
              match st3.accounts.find? (fun a => a.accountType = "expense" ∧ a.status = "active") with
              | some a => some a
              | none =>
                match st3.accounts.find? (fun a => a.accountType = "asset" ∧ a.status = "active") with
                | some a => some a
                | none => st3.accounts.find? (fun a => a.status = "active")
          match account1, account2 with
          | some a1, some a2 =>
            if a1.code ≠ a2.code then
              if st3.entries.any (fun e => e.referenceNo = refNo) then (none, st3)
              else
                let je :=
                  if ty = "income" then mkTxnEntry a1.code a2.code
                  else mkTxnEntry a2.code a1.code
                (some je, { st3 with entries := st3.entries ++ [je] })
            else (none, st3)
          | _, _ => (none, st3)
      let je1 := fallbackEntry.1
      let st4 := fallbackEntry.2
      match je1 with
      | none => (.created txn, st4)
      | some je =>
        -- the debt save; on failure the catch only logs, all earlier
        -- writes (transaction, journal entry, partner) stay committed
        if debtSaveFails then (.created txn, st4)
        else if ty = "income" then
          let receivable : Receivable :=
            { id := ids.newDebtId
              journalEntry := je.id
              customer := partner.id
              orderRef := none
              originalAmount := amt
              remainingAmount := amt
              paymentStatus := "unpaid"
              dueDate := now + 30
              invoiceDate := date.getD 0 }
          (.created txn, { st4 with receivables := st4.receivables ++ [receivable] })
        else
          let payable : Payable :=
            { id := ids.newDebtId
              journalEntry := je.id
              supplier := partner.id
              billType := "expense"
              originalAmount := amt
              remainingAmount := amt
              paymentStatus := "unpaid"
              dueDate := now + 30
              invoiceDate := date.getD 0 }
          (.created txn, { st4 with payables := st4.payables ++ [payable] })

/-!  Concrete fixtures used by witnesses and counterexamples.  -/

def accFix : List Account :=
  [ ⟨"111", "Cash", "asset", "active"⟩
  , ⟨"1121", "Bank", "asset", "active"⟩
  , ⟨"131", "Accounts receivable", "asset", "active"⟩
  , ⟨"156", "Inventory", "asset", "active"⟩
  , ⟨"214", "Accumulated depreciation", "asset", "active"⟩
  , ⟨"331", "Accounts payable", "liability", "active"⟩
  , ⟨"421", "Retained earnings", "equity", "active"⟩
  , ⟨"511", "Sales revenue", "revenue", "active"⟩
  , ⟨"632", "Cost of goods sold", "expense", "active"⟩
  , ⟨"642", "Administration expense", "expense", "active"⟩
  , ⟨"911", "Income summary", "equity", "active"⟩ ]

def stEmpty : St := ⟨accFix, [], [], [], [], [], [], [], []⟩

/-- Product and order for the COGS fixtures: 2 units sold at moving
average cost 5 from a stock of 10. -/
def prodFix : Product := ⟨"pr1", "Rice", some 5, some 8, some 10⟩

def orderFix : Order :=
  ⟨"o1", some "u1", [⟨"pr1", 2⟩], "Alice", 500000, "BankTransfer",
   "delivered", 50, some 60⟩

def stCOGSFix : St := { stEmpty with products := [prodFix], orders := [orderFix] }

/-- A period already closed, with a lock date. -/
def closedPeriodFix : Period :=
  ⟨"p1", "Q1", 0, 100, some 100, "closed", some 101, some "admin"⟩

def stClosedFix : St := { stEmpty with periods := [closedPeriodFix] }

/-- A COGS entry already posted for order `o1`. -/
def cogsEntryFix : JournalEntry :=
  ⟨"je0", "COGS-0", 50, 55, "cogs", "inventory",
   [⟨"632", 10, 0, ""⟩, ⟨"156", 0, 10, ""⟩], some "o1", some "order", "posted"⟩

def stCOGSDoneFix : St := { stCOGSFix with entries := [cogsEntryFix] }

/-- The COGS entry the first posting for `orderFix` creates: 2 units at
average cost 5. -/
def cogsNewEntryFix : JournalEntry :=
  ⟨"je1", "COGS-1", 50, 70, "cost of goods sold for order", "inventory",
   [⟨"632", 10, 0, "cost of goods sold"⟩, ⟨"156", 0, 10, "inventory issue"⟩],
   some "o1", some "order", "posted"⟩

def cogsUpsFix : List ProdUpdate := [⟨"pr1", "Rice", 2, 5, 10, 8⟩]

def stCOGSAfterFix : St :=
  { stCOGSFix with
    products := [{ prodFix with stock := some 8 }]
    entries := [cogsNewEntryFix] }

/-- An open period and two posted entries inside it: revenue 1,000,000
and expense 700,000. -/
def openPeriodFix : Period := ⟨"p2", "Q2", 0, 100, none, "open", none, none⟩

def revEntryFix : JournalEntry :=
  ⟨"e1", "S1", 10, 10, "sale", "sale",
   [⟨"1121", 1000000, 0, ""⟩, ⟨"511", 0, 1000000, ""⟩], none, none, "posted"⟩

def expEntryFix : JournalEntry :=
  ⟨"e2", "X1", 20, 20, "expense", "payment",
   [⟨"642", 700000, 0, ""⟩, ⟨"1121", 0, 700000, ""⟩], none, none, "posted"⟩

def stCloseFix : St :=
  { stEmpty with entries := [revEntryFix, expEntryFix], periods := [openPeriodFix] }

/-- A fresh fixed asset: cost 1200 over 12 months. -/
def assetFix : FixedAsset :=
  ⟨"fa1", some "FA-01", "Truck", 1200, 12, none, 0, 1200, [], "active"⟩

/-- A posted entry dated inside the closed period `closedPeriodFix`. -/
def lockedEntryFix : JournalEntry :=
  ⟨"je1", "R1", 10, 10, "original", "manual",
   [⟨"131", 100, 0, ""⟩, ⟨"511", 0, 100, ""⟩], none, none, "posted"⟩

def txnLockedFix : Txn := ⟨"t1", "income", 50, "d", "Bán hàng", 10, "", "paid"⟩

def stLockFix : St :=
  { stEmpty with entries := [lockedEntryFix], transactions := [txnLockedFix]
                 periods := [closedPeriodFix] }

/-- A posted depreciation entry whose credit account 214 has no account
document. -/
def depEntryFix : JournalEntry :=
  ⟨"d1", "DEP-X", 10, 10, "dep", "depreciation",
   [⟨"642", 100, 0, ""⟩, ⟨"214", 0, 100, ""⟩], none, some "depreciation", "posted"⟩

def stTBGapFix : St :=
  { stEmpty with accounts := accFix.filter (fun a => a.code ≠ "214")
                 entries := [depEntryFix] }

def stTBOkFix : St := { stEmpty with entries := [revEntryFix, expEntryFix] }

/-- A guest COD order (no user reference), already shipped. -/
def guestCODOrderFix : Order :=
  ⟨"o9", none, [⟨"pr1", 1⟩], "Guest", 300000, "COD", "shipped", 50, some 60⟩

/-- A COD order with a customer, already shipped. -/
def codOrderFix : Order :=
  ⟨"o2", some "u2", [⟨"pr1", 1⟩], "Binh", 300000, "COD", "shipped", 40, some 60⟩

/-- A customer user for the transactions fixtures. -/
def custFix : User := ⟨"u1", "Binh", "binh@x.vn", some "0911222333", "customer"⟩

def stTxFix : St := { stEmpty with users := [custFix] }

def txIdsFix : TxIds := ⟨"t1", "u9", "je5", "rv5"⟩

def peReqFix : PEReq :=
  { amount := some 500, category := "Bán hàng", description := "sale"
    date := some 20, reference := none, paymentStatus := some "unpaid"
    type := "income", partnerName := some "Binh", partnerPhone := none
    dueDate := some 40, journalEntryId := none }

def peIdsFix : PEIds := ⟨"jeP", "uP", "rvP", "REF-P"⟩

/-- Expected sale journal entry (for stating the sale-posting claims):
the entry `createSaleJournalEntry` persists, with the given lines. -/
def saleEntryOf (order : Order) (refNo newEntryId : String) (now : ℤ)
    (ls : List Line) : JournalEntry :=
  { id := newEntryId
    referenceNo := refNo
    date := order.createdAt
    postingDate := now
    memo := "sale entry for order"
    entryType := "sale"
    lines := ls
    sourceId := some order.id
    sourceType := some "order"
    status := "posted" }

/-- Expected lines of a bank-transfer-class sale: debit 1121, credit 511
for the order total. -/
def bankSaleLines (total : ℚ) : List Line :=
  [⟨"1121", total, 0, "bank transfer sale"⟩, ⟨"511", 0, total, "sales revenue"⟩]

/-- Expected lines of a shipped/delivered COD sale: debit 131, credit 511
for the order total. -/
def codSaleLines (total : ℚ) : List Line :=
  [⟨"131", total, 0, "COD receivable"⟩, ⟨"511", 0, total, "COD sales revenue"⟩]

/-- Expected receivable of a shipped/delivered COD sale: original =
remaining = order total, unpaid, due 7 days after the ship date
(`order.updatedAt`, falling back to `createdAt`). -/
def codReceivableOf (order : Order) (entryId recvId customer : String) : Receivable :=
  { id := recvId
    journalEntry := entryId
    customer := customer
    orderRef := some order.id
    originalAmount := order.finalTotal
    remainingAmount := order.finalTotal
    paymentStatus := "unpaid"
    dueDate := (order.updatedAt.getD order.createdAt) + 7
    invoiceDate := order.createdAt }

/-- The entry and updated asset produced by depreciating `assetFix` for
month 2024-01: straight-line amount 1200 / 12 = 100. -/
def depJeFix : JournalEntry :=
  ⟨"je9", "DEP-2024-01-FA-01", 0, 5, "monthly depreciation", "depreciation",
   [⟨"642", 100, 0, "depreciation expense"⟩,
    ⟨"214", 0, 100, "accumulated depreciation"⟩],
   some "fa1", some "depreciation", "posted"⟩

def depAssetAfterFix : FixedAsset :=
  { assetFix with
    accumulatedDepreciation := 100
    bookValue := 1100
    depreciationHistory := [⟨"2024-01", 100, "je9"⟩] }

/-- Balanced manual request lines: debit 131 / credit 511 by 100. -/
def okLinesFix : List LineReq :=
  [⟨"131", some 100, none, none⟩, ⟨"511", none, some 100, none⟩]

/-- Unbalanced manual request lines: debit 100 against credit 50. -/
def badLinesFix : List LineReq :=
  [⟨"131", some 100, none, none⟩, ⟨"511", none, some 50, none⟩]

/-!  Theorems.  -/

/-- **C3.** Calling close-period on a period whose status is already
`closed` answers the already-closed state error and returns the state
untouched: no closing entry is appended and the period record keeps its
status, lockDate, closedAt and closedBy. -/
theorem c3_close_period_already_closed (st : St) (pid : String)
    (lockDate : Option ℤ) (now : ℤ) (userId : Option String)
    (idR idE idP refR refE refP : String) (p : Period)
    (hfind : st.periods.find? (fun q => q.id = pid) = some p)
    (hclosed : p.status = "closed") :
    closePeriod st (some pid) lockDate now userId idR idE idP refR refE refP =
      (.alreadyClosed, st) := by
  simp only [closePeriod]
  rw [hfind]
  simp [hclosed]

/-- Witness for C3 at a concrete closed period. -/
theorem c3_close_period_already_closed_witness :
    closePeriod stClosedFix (some "p1") (some 90) 200 (some "admin")
      "i1" "i2" "i3" "r1" "r2" "r3" = (.alreadyClosed, stClosedFix) :=
  c3_close_period_already_closed stClosedFix "p1" (some 90) 200 (some "admin")
    "i1" "i2" "i3" "r1" "r2" "r3" closedPeriodFix (by decide) (by decide)

/-- Shared helper: when the order exists and its COGS guard finds a
posted 632 entry, `postCOGSEntry` returns that entry with no updates and
no state change. -/
theorem postCOGS_existing_hit (st : St) (orderId newId refNo : String)
    (now : ℤ) (o : Order) (e0 : JournalEntry)
    (horder : st.orders.find? (fun x => x.id = orderId) = some o)
    (hfound : findCOGSEntry st.entries orderId = some e0) :
    postCOGSEntry st orderId newId refNo now = (.ok (e0, []), st) := by
  unfold postCOGSEntry
  rw [horder, hfound]

/-- **C10.** When the COGS posting operation runs for an order that
already has a posted COGS entry, it returns that entry with an empty
`productsUpdated` list and the state — in particular every product's
stock and averageCost — unchanged: the early return fires before the
per-item loop. -/
theorem c10_cogs_repeat_leaves_stock_unchanged (st : St)
    (orderId newId refNo : String) (now : ℤ) (o : Order) (e0 : JournalEntry)
    (horder : st.orders.find? (fun x => x.id = orderId) = some o)
    (hfound : findCOGSEntry st.entries orderId = some e0) :
    postCOGSEntry st orderId newId refNo now = (.ok (e0, []), st) :=
  postCOGS_existing_hit st orderId newId refNo now o e0 horder hfound

/-- Witness for C10: a second COGS posting for order `o1` returns the
stored entry, reports no product updates and leaves the state — stock
included — untouched. -/
theorem c10_cogs_repeat_leaves_stock_unchanged_witness :
    postCOGSEntry stCOGSDoneFix "o1" "jeX" "COGS-9" 99 =
      (.ok (cogsEntryFix, []), stCOGSDoneFix) :=
  c10_cogs_repeat_leaves_stock_unchanged stCOGSDoneFix "o1" "jeX" "COGS-9" 99
    orderFix cogsEntryFix (by decide) (by decide)

/-- **C2.** `postCOGSEntry` is idempotent per order: starting from a
state with no posted COGS entry for the order, a successful first
invocation leaves exactly one posted entry carrying a 632 line with the
order as source, and a second invocation returns that pre-existing entry
with no product updates and no state change — no duplicate entry or
duplicate lines. -/
theorem c2_postcogs_idempotent (st : St) (orderId newId refNo newId2 refNo2 : String)
    (now now2 : ℤ) (e : JournalEntry) (ups : List ProdUpdate) (st1 : St)
    (hnone : findCOGSEntry st.entries orderId = none)
    (h1 : postCOGSEntry st orderId newId refNo now = (.ok (e, ups), st1)) :
    (st1.entries.filter (isCOGSEntryFor orderId)).length = 1 ∧
    postCOGSEntry st1 orderId newId2 refNo2 now2 = (.ok (e, []), st1) := by
  have hpredFalse : ∀ x ∈ st.entries, ¬ isCOGSEntryFor orderId x = true := by
    intro x hx
    exact List.find?_eq_none.mp hnone x hx
  cases horder : st.orders.find? (fun x => x.id = orderId) with
  | none =>
    unfold postCOGSEntry at h1
    simp only [horder] at h1
    simp at h1
  | some o =>
    unfold postCOGSEntry at h1
    simp only [horder, hnone] at h1
    split at h1
    · simp at h1
    · split at h1
      · simp at h1
      · split at h1
        · simp at h1
        · split at h1
          · simp at h1
          · split at h1
            · simp at h1
            · simp only [Prod.mk.injEq, Except.ok.injEq] at h1
              obtain ⟨⟨he, _hups⟩, hst⟩ := h1
              have hpred : isCOGSEntryFor orderId e = true := by
                rw [← he]
                simp [isCOGSEntryFor]
              have hentries : st1.entries = st.entries ++ [e] := by
                rw [← hst, ← he]
              have horders1 : st1.orders = st.orders := by
                rw [← hst]
              have hfilter : st.entries.filter (isCOGSEntryFor orderId) = [] :=
                List.filter_eq_nil_iff.mpr hpredFalse
              have hfound1 : findCOGSEntry st1.entries orderId = some e := by
                unfold findCOGSEntry
                rw [hentries, List.find?_append]
                unfold findCOGSEntry at hnone
                simp [hnone, hpred]
              refine ⟨?_, ?_⟩
              · rw [hentries, List.filter_append, hfilter, List.filter_cons]
                simp [hpred]
              · exact postCOGS_existing_hit st1 orderId newId2 refNo2 now2 o e
                  (by rw [horders1]; exact horder) hfound1

/-- A list of lines whose debit and credit totals agree is balanced
within the 0.01 tolerance. -/
theorem balanced_of_eq {l : List Line} (h : linesDebit l = linesCredit l) :
    balancedWithin l := by
  unfold balancedWithin
  rw [h, sub_self, abs_zero]
  norm_num [tol]

/-- Sum of a constant-zero map. -/
theorem sum_map_zero {α} (l : List α) : (l.map (fun _ => (0 : ℚ))).sum = 0 := by
  induction l with
  | nil => rfl
  | cons a t ih => simp [ih]

/-- Every per-account group total built from positive contributions is
positive. -/
theorem map_snd_groups_pos (ls : List Line) (f : Line → ℚ)
    (hpos : ∀ l ∈ ls, 0 < f l) :
    ∀ g ∈ ((ls.map Line.accountCode).dedup).map (fun c =>
      (c, ((ls.filter (fun l => l.accountCode = c)).map f).sum)), 0 < g.2 := by
  intro g hg
  rcases List.mem_map.mp hg with ⟨c, hc, rfl⟩
  have hc2 : c ∈ ls.map Line.accountCode := List.mem_dedup.mp hc
  rcases List.mem_map.mp hc2 with ⟨l0, hl0, hlc⟩
  refine List.sum_pos _ ?_ ?_
  · intro x hx
    rcases List.mem_map.mp hx with ⟨l1, hl1, rfl⟩
    exact hpos l1 (List.mem_filter.mp hl1).1
  · have hmem : l0 ∈ ls.filter (fun l => l.accountCode = c) :=
      List.mem_filter.mpr ⟨hl0, by simp [hlc]⟩
    intro hnil
    rw [List.map_eq_nil_iff] at hnil
    rw [hnil] at hmem
    exact absurd hmem (List.not_mem_nil l0)

theorem revenueAgg_pos (st : St) (p : Period) : ∀ g ∈ revenueAgg st p, 0 < g.2 := by
  unfold revenueAgg
  apply map_snd_groups_pos
  intro l hl
  have h := (List.mem_filter.mp hl).2
  simp only [decide_eq_true_eq, Bool.and_eq_true] at h
  exact h.2

theorem expenseAgg_pos (st : St) (p : Period) : ∀ g ∈ expenseAgg st p, 0 < g.2 := by
  unfold expenseAgg
  apply map_snd_groups_pos
  intro l hl
  have h := (List.mem_filter.mp hl).2
  simp only [decide_eq_true_eq, Bool.and_eq_true] at h
  exact h.2

theorem revenue_total_pos_or_nil (st : St) (p : Period) :
    revenueAgg st p = [] ∨ 0 < totalRevenueOf st p := by
  rcases eq_or_ne (revenueAgg st p) [] with h | h
  · exact Or.inl h
  · refine Or.inr (List.sum_pos _ ?_ (by simpa using h))
    intro x hx
    rcases List.mem_map.mp hx with ⟨g, hg, rfl⟩
    exact revenueAgg_pos st p g hg

theorem expense_total_pos_or_nil (st : St) (p : Period) :
    expenseAgg st p = [] ∨ 0 < totalExpenseOf st p := by
  rcases eq_or_ne (expenseAgg st p) [] with h | h
  · exact Or.inl h
  · refine Or.inr (List.sum_pos _ ?_ (by simpa using h))
    intro x hx
    rcases List.mem_map.mp hx with ⟨g, hg, rfl⟩
    exact expenseAgg_pos st p g hg

/-- The revenue closing entry balances: the 911 credit equals the summed
per-account debits. -/
theorem revenueClosingLines_balanced (st : St) (p : Period) :
    linesDebit (revenueClosingLines st p) = linesCredit (revenueClosingLines st p) := by
  unfold revenueClosingLines linesDebit linesCredit
  rcases revenue_total_pos_or_nil st p with h | h
  · simp [h, totalRevenueOf]
  · rw [if_pos h]
    simp only [List.map_append, List.sum_append, List.map_map]
    have hd : (revenueAgg st p).map
        (Line.debit ∘ fun g =>
          ({ accountCode := g.1, debit := g.2, credit := 0, description := "close revenue" } : Line)) =
        (revenueAgg st p).map Prod.snd := rfl
    have hc : (revenueAgg st p).map
        (Line.credit ∘ fun g =>
          ({ accountCode := g.1, debit := g.2, credit := 0, description := "close revenue" } : Line)) =
        (revenueAgg st p).map (fun _ => (0 : ℚ)) := rfl
    rw [hd, hc, sum_map_zero]
    simp [totalRevenueOf]

/-- The expense closing entry balances. -/
theorem expenseClosingLines_balanced (st : St) (p : Period) :
    linesDebit (expenseClosingLines st p) = linesCredit (expenseClosingLines st p) := by
  unfold expenseClosingLines linesDebit linesCredit
  rcases expense_total_pos_or_nil st p with h | h
  · simp [h, totalExpenseOf]
  · rw [if_pos h]
    simp only [List.map_append, List.sum_append, List.map_map]
    have hd : (expenseAgg st p).map
        (Line.debit ∘ fun g =>
          ({ accountCode := g.1, debit := 0, credit := g.2, description := "close expense" } : Line)) =
        (expenseAgg st p).map (fun _ => (0 : ℚ)) := rfl
    have hc : (expenseAgg st p).map
        (Line.credit ∘ fun g =>
          ({ accountCode := g.1, debit := 0, credit := g.2, description := "close expense" } : Line)) =
        (expenseAgg st p).map Prod.snd := rfl
    rw [hd, hc, sum_map_zero]
    simp [totalExpenseOf]

/-- The profit roll-up entry balances. -/
theorem profitClosingLines_balanced (np : ℚ) :
    linesDebit (profitClosingLines np) = linesCredit (profitClosingLines np) := by
  unfold profitClosingLines linesDebit linesCredit
  rcases lt_trichotomy 0 np with h | h | h
  · simp [h]
  · simp [← h]
  · have h1 : ¬ 0 < np := by linarith
    simp [h1, h]

/-- An element of an `if c then [] else [x]` block is `x`. -/
theorem eq_of_mem_ite_nil_singleton {α} {c : Prop} [Decidable c] {x e : α}
    (h : e ∈ (if c then ([] : List α) else [x])) : e = x := by
  by_cases hc : c
  · rw [if_pos hc] at h
    exact absurd h (List.not_mem_nil e)
  · rw [if_neg hc] at h
    simpa using h

/-- Every closing entry close-period builds is balanced (each is one of
the three roll-ups). -/
theorem closingEntriesFor_balanced (st : St) (p : Period) (now : ℤ)
    (idR idE idP refR refE refP : String) :
    ∀ e ∈ closingEntriesFor st p now idR idE idP refR refE refP,
      balancedWithin e.lines := by
  intro e he
  unfold closingEntriesFor at he
  rcases List.mem_append.mp he with h | h
  · rcases List.mem_append.mp h with h2 | h2
    · rw [eq_of_mem_ite_nil_singleton h2]
      exact balanced_of_eq (revenueClosingLines_balanced st p)
    · rw [eq_of_mem_ite_nil_singleton h2]
      exact balanced_of_eq (expenseClosingLines_balanced st p)
  · rw [eq_of_mem_ite_nil_singleton h]
    exact balanced_of_eq (profitClosingLines_balanced _)

/-- Debit total of mapped request lines. -/
theorem linesDebit_map_mkLine (lines : List LineReq) :
    linesDebit (lines.map mkLine) = reqDebitTotal lines := by
  unfold linesDebit reqDebitTotal
  rw [List.map_map]
  rfl

/-- Credit total of mapped request lines. -/
theorem linesCredit_map_mkLine (lines : List LineReq) :
    linesCredit (lines.map mkLine) = reqCreditTotal lines := by
  unfold linesCredit reqCreditTotal
  rw [List.map_map]
  rfl

/-- Request lines that pass the balance validation map to balanced
document lines. -/
theorem balanced_of_not_gt {lines : List LineReq}
    (h : ¬ tol < |reqDebitTotal lines - reqCreditTotal lines|) :
    balancedWithin (lines.map mkLine) := by
  unfold balancedWithin
  rw [linesDebit_map_mkLine, linesCredit_map_mkLine]
  exact not_lt.mp h

/-- The entry post-entry saves carries exactly the lines it built. -/
theorem peEntry_lines (r : PEReq) (ids : PEIds) (now : ℤ) (refNo : String)
    (ls : List Line) (ex : Option JournalEntry) :
    (peEntry r ids now refNo ls ex).lines = ls := by
  cases ex <;> rfl

/-- The line pair post-entry builds is exactly balanced. -/
theorem peLines_balanced (r : PEReq) (accPair : String × String)
    (mapping : CatMap) :
    linesDebit (peLines r accPair mapping) =
      linesCredit (peLines r accPair mapping) := by
  simp only [peLines]
  split <;> simp [linesDebit, linesCredit]

/-- The debt phase never alters the entry it was handed: a successful
result returns that entry. -/
theorem peDebtPhase_ok_fst {stS : St} {r : PEReq} {ids : PEIds} {now : ℤ}
    {f : Bool} {entry : JournalEntry} {d c n : String} {p : Option String}
    {e : JournalEntry} {st2 : St}
    (h : peDebtPhase stS r ids now f entry d c n p = .ok (e, st2)) :
    e = entry := by
  simp only [peDebtPhase] at h
  split at h
  · exact Except.noConfusion h
  · split at h
    · split at h
      · exact Except.noConfusion h
      · injection h with h2
        injection h2 with h3 h4
        exact h3.symm
    · split at h
      · split at h
        · exact Except.noConfusion h
        · injection h with h2
          injection h2 with h3 h4
          exact h3.symm
      · injection h with h2
        injection h2 with h3 h4
        exact h3.symm

/-- With the injected debt-save failure, the debt phase of an income
posting against the receivable account can never succeed: the catch
block aborts the transaction. -/
theorem peDebtPhase_fails_of_income {stS : St} {r : PEReq} {ids : PEIds}
    {now : ℤ} {entry : JournalEntry} {c n : String} {p : Option String}
    {x : JournalEntry × St}
    (hty : r.type = "income")
    (h : peDebtPhase stS r ids now true entry "131" c n p = .ok x) :
    False := by
  simp only [peDebtPhase] at h
  split at h
  · exact Except.noConfusion h
  · split at h
    · split at h
      · exact Except.noConfusion h
      · rename_i hf
        simp at hf
    · rename_i hcond
      exact hcond ⟨hty, by simp⟩

/-- A successful debt phase for an income posting against the receivable
account leaves a `Receivable` pointing at the entry in the final state. -/
theorem peDebtPhase_ok_receivable {stS : St} {r : PEReq} {ids : PEIds}
    {now : ℤ} {f : Bool} {entry : JournalEntry} {c n : String}
    {p : Option String} {e : JournalEntry} {st2 : St}
    (hty : r.type = "income")
    (h : peDebtPhase stS r ids now f entry "131" c n p = .ok (e, st2)) :
    ∃ rv ∈ st2.receivables, rv.journalEntry = entry.id := by
  simp only [peDebtPhase] at h
  split at h
  · exact Except.noConfusion h
  · split at h
    · split at h
      · exact Except.noConfusion h
      · injection h with h2
        injection h2 with h3 h4
        subst h4
        exact ⟨_, List.mem_append_right _ (List.mem_singleton_self _), rfl⟩
    · rename_i hcond
      exact absurd ⟨hty, by simp⟩ hcond

/-- Every entry the posting tail of post-entry returns successfully is
balanced: its lines are the two built ones, checked and exactly equal. -/
theorem pePost_ok_balanced {st : St} {r : PEReq} {ids : PEIds} {now : ℤ}
    {f : Bool} {accPair : String × String} {accs2 : List Account}
    {ex : Option JournalEntry} {e : JournalEntry} {st2 : St}
    (h : pePost st r ids now f accPair accs2 ex = .ok (e, st2)) :
    balancedWithin e.lines := by
  simp only [pePost] at h
  split at h
  · exact Except.noConfusion h
  · split at h
    · exact Except.noConfusion h
    · split at h
      · rw [peDebtPhase_ok_fst h, peEntry_lines]
        exact balanced_of_eq (peLines_balanced _ _ _)
      · injection h with h2
        injection h2 with h3 h4
        rw [← h3, peEntry_lines]
        exact balanced_of_eq (peLines_balanced _ _ _)

/-- With the injected debt-save failure, the posting tail of an unpaid
income request can never succeed. -/
theorem pePost_debt_fail {st : St} {r : PEReq} {ids : PEIds} {now : ℤ}
    {accPair : String × String} {accs2 : List Account}
    {ex : Option JournalEntry} {x : JournalEntry × St}
    (hty : r.type = "income") (hunpaid : r.paymentStatus = some "unpaid")
    (hname : strTrim (r.partnerName.getD "") ≠ "")
    (hdue : r.dueDate.isSome)
    (h : pePost st r ids now true accPair accs2 ex = .ok x) : False := by
  simp only [pePost] at h
  split at h
  · exact Except.noConfusion h
  · split at h
    · exact Except.noConfusion h
    · split at h
      · rw [show peDebitAccountCode r accPair = "131" by
          simp [peDebitAccountCode, hty, hunpaid]] at h
        exact peDebtPhase_fails_of_income hty h
      · rename_i hcond
        refine hcond ⟨?_, hunpaid, ?_, hdue⟩
        · simp [peIsDebt, hty, hunpaid]
        · simp only [peTrimmedPartnerName]
          rw [if_pos hunpaid]
          exact hname

/-- A successful posting tail for an unpaid income request leaves a
`Receivable` pointing at the returned entry. -/
theorem pePost_ok_receivable {st : St} {r : PEReq} {ids : PEIds} {now : ℤ}
    {f : Bool} {accPair : String × String} {accs2 : List Account}
    {ex : Option JournalEntry} {e : JournalEntry} {st2 : St}
    (hty : r.type = "income") (hunpaid : r.paymentStatus = some "unpaid")
    (hname : strTrim (r.partnerName.getD "") ≠ "")
    (hdue : r.dueDate.isSome)
    (h : pePost st r ids now f accPair accs2 ex = .ok (e, st2)) :
    ∃ rv ∈ st2.receivables, rv.journalEntry = e.id := by
  simp only [pePost] at h
  split at h
  · exact Except.noConfusion h
  · split at h
    · exact Except.noConfusion h
    · split at h
      · rw [show peDebitAccountCode r accPair = "131" by
          simp [peDebitAccountCode, hty, hunpaid]] at h
        rw [peDebtPhase_ok_fst h]
        exact peDebtPhase_ok_receivable hty h
      · rename_i hcond
        exact absurd ⟨by simp [peIsDebt, hty, hunpaid], hunpaid,
          by simp only [peTrimmedPartnerName]; rw [if_pos hunpaid]; exact hname,
          hdue⟩ hcond

/-- Shared helper: a freshly posted COGS entry is balanced (its two lines
carry the same total). -/
theorem postCOGS_fresh_balanced (st : St) (orderId newId refNo : String)
    (now : ℤ) (e : JournalEntry) (ups : List ProdUpdate) (st2 : St)
    (hnone : findCOGSEntry st.entries orderId = none)
    (h : postCOGSEntry st orderId newId refNo now = (.ok (e, ups), st2)) :
    balancedWithin e.lines := by
  cases horder : st.orders.find? (fun x => x.id = orderId) with
  | none =>
    unfold postCOGSEntry at h
    simp only [horder] at h
    simp at h
  | some o =>
    unfold postCOGSEntry at h
    simp only [horder, hnone] at h
    split at h
    · simp at h
    · split at h
      · simp at h
      · split at h
        · simp at h
        · split at h
          · simp at h
          · split at h
            · simp at h
            · simp only [Prod.mk.injEq, Except.ok.injEq] at h
              obtain ⟨⟨he, _⟩, _⟩ := h
              rw [← he]
              exact balanced_of_eq (by simp [linesDebit, linesCredit])

/-- **C1.** Every journal entry these operations persist as `posted` —
manual creation, rule-driven post-entry, internal transfer, COGS
posting, adjusting entries and the period-closing roll-ups — has equal
debit and credit totals within the 0.01 tolerance, and a manual request
whose lines differ by more than 0.01 is rejected before persisting with
the state unchanged. -/
theorem c1_posted_entries_balanced :
    (∀ st newId now referenceNo date memo entryType lines sourceId sourceType e st2,
      postJournalEntries st newId now referenceNo date memo entryType lines
        sourceId sourceType = (.created e, st2) → balancedWithin e.lines) ∧
    (∀ st newId now referenceNo date memo entryType lines sourceId sourceType,
      referenceNo.getD "" ≠ "" → date.isSome = true → memo.getD "" ≠ "" →
      lines.isEmpty = false →
      tol < |reqDebitTotal lines - reqCreditTotal lines| →
      postJournalEntries st newId now referenceNo date memo entryType lines
        sourceId sourceType = (.badRequest "entry not balanced", st)) ∧
    (∀ st r ids now f e st2, postEntryCore st r ids now f = .ok (e, st2) →
      balancedWithin e.lines) ∧
    (∀ st newId now fromAccountCode toAccountCode amount dsc date ref genRef e st2,
      internalTransfer st newId now fromAccountCode toAccountCode amount dsc date
        ref genRef = (.created e, st2) → balancedWithin e.lines) ∧
    (∀ st orderId newId refNo now e ups st2,
      findCOGSEntry st.entries orderId = none →
      postCOGSEntry st orderId newId refNo now = (.ok (e, ups), st2) →
      balancedWithin e.lines) ∧
    (∀ st newId now referenceNo date adjustedDate memo lines genRef e st2,
      postAdjustingEntry st newId now referenceNo date adjustedDate memo lines
        genRef = (.created e, st2) → balancedWithin e.lines) ∧
    (∀ st periodId lockDate now userId idR idE idP refR refE refP s es st2,
      closePeriod st periodId lockDate now userId idR idE idP refR refE refP =
        (.ok s es, st2) → ∀ e ∈ es, balancedWithin e.lines) := by
  refine ⟨?_, ?_, ?_, ?_, ?_, ?_, ?_⟩
  · intro st newId now referenceNo date memo entryType lines sourceId sourceType e st2 h
    simp only [postJournalEntries] at h
    split at h
    · exact JEResp.noConfusion (congrArg Prod.fst h)
    · split at h
      · exact JEResp.noConfusion (congrArg Prod.fst h)
      · rename_i hbal
        split at h
        · exact JEResp.noConfusion (congrArg Prod.fst h)
        · split at h
          · exact JEResp.noConfusion (congrArg Prod.fst h)
          · simp only [Prod.mk.injEq, JEResp.created.injEq] at h
            rw [← h.1]
            exact balanced_of_not_gt hbal
  · intro st newId now referenceNo date memo entryType lines sourceId sourceType
      h1 h2 h3 h4 h5
    simp only [postJournalEntries]
    rw [if_neg, if_pos h5]
    simp [h1, h2, h3, h4, Option.isNone_iff_eq_none]
    intro hn
    rw [hn] at h2
    simp at h2
  · intro st r ids now f e st2 h
    simp only [postEntryCore] at h
    split at h
    · exact Except.noConfusion h
    · split at h
      · exact Except.noConfusion h
      · split at h
        · exact Except.noConfusion h
        · split at h
          · exact Except.noConfusion h
          · split at h
            · exact Except.noConfusion h
            · split at h
              · exact Except.noConfusion h
              · split at h
                · exact Except.noConfusion h
                · split at h
                  · exact Except.noConfusion h
                  · split at h
                    · exact Except.noConfusion h
                    · split at h
                      · exact Except.noConfusion h
                      · exact pePost_ok_balanced h
  · intro st newId now fromAccountCode toAccountCode amount dsc date ref genRef e st2 h
    simp only [internalTransfer] at h
    split at h
    · exact JEResp.noConfusion (congrArg Prod.fst h)
    · split at h
      · exact JEResp.noConfusion (congrArg Prod.fst h)
      · split at h
        · exact JEResp.noConfusion (congrArg Prod.fst h)
        · split at h
          · split at h
            · exact JEResp.noConfusion (congrArg Prod.fst h)
            · split at h
              · exact JEResp.noConfusion (congrArg Prod.fst h)
              · split at h
                · exact JEResp.noConfusion (congrArg Prod.fst h)
                · simp only [Prod.mk.injEq, JEResp.created.injEq] at h
                  rw [← h.1]
                  exact balanced_of_eq (by simp [linesDebit, linesCredit])
          · exact JEResp.noConfusion (congrArg Prod.fst h)
  · intro st orderId newId refNo now e ups st2 hnone h
    exact postCOGS_fresh_balanced st orderId newId refNo now e ups st2 hnone h
  · intro st newId now referenceNo date adjustedDate memo lines genRef e st2 h
    simp only [postAdjustingEntry] at h
    split at h
    · exact JEResp.noConfusion (congrArg Prod.fst h)
    · split at h
      · exact JEResp.noConfusion (congrArg Prod.fst h)
      · rename_i hbal
        split at h
        · exact JEResp.noConfusion (congrArg Prod.fst h)
        · split at h
          · exact JEResp.noConfusion (congrArg Prod.fst h)
          · simp only [Prod.mk.injEq, JEResp.created.injEq] at h
            rw [← h.1]
            unfold balancedWithin
            have hd : linesDebit (lines.map (fun l =>
                ({ accountCode := l.accountCode, debit := lineReqDebit l,
                   credit := lineReqCredit l,
                   description := l.description.getD (memo.getD "") } : Line))) =
                reqDebitTotal lines := by
              unfold linesDebit reqDebitTotal
              rw [List.map_map]
              rfl
            have hc : linesCredit (lines.map (fun l =>
                ({ accountCode := l.accountCode, debit := lineReqDebit l,
                   credit := lineReqCredit l,
                   description := l.description.getD (memo.getD "") } : Line))) =
                reqCreditTotal lines := by
              unfold linesCredit reqCreditTotal
              rw [List.map_map]
              rfl
            rw [hd, hc]
            exact not_lt.mp hbal
  · intro st periodId lockDate now userId idR idE idP refR refE refP s es st2 h
    cases periodId with
    | none => exact CloseResp.noConfusion (congrArg Prod.fst h)
    | some pid =>
      cases hfind : st.periods.find? (fun q => q.id = pid) with
      | none =>
        simp only [closePeriod, hfind] at h
        exact CloseResp.noConfusion (congrArg Prod.fst h)
      | some p =>
        simp only [closePeriod, hfind] at h
        by_cases hclosed : p.status = "closed"
        · rw [if_pos hclosed] at h
          exact CloseResp.noConfusion (congrArg Prod.fst h)
        · rw [if_neg hclosed] at h
          simp only [Prod.mk.injEq, CloseResp.ok.injEq] at h
          intro e he
          have hes : es = closingEntriesFor st p now idR idE idP refR refE refP :=
            h.1.2.symm
          rw [hes] at he
          exact closingEntriesFor_balanced st p now idR idE idP refR refE refP e he


/-- Witness for C1: a concrete balanced manual entry is persisted and
balanced, and the same request with credit 50 against debit 100 is
rejected with the state unchanged. -/
theorem c1_posted_entries_balanced_witness :
    balancedWithin (okLinesFix.map mkLine) ∧
    postJournalEntries stEmpty "m1" 7 (some "R9") (some 5) (some "memo") none
      badLinesFix none none = (.badRequest "entry not balanced", stEmpty) := by
  constructor
  · exact c1_posted_entries_balanced.1 stEmpty "m1" 7 (some "R9") (some 5)
      (some "memo") none okLinesFix none none
      { id := "m1", referenceNo := "R9", date := 5, postingDate := 7
        memo := "memo", entryType := "manual", lines := okLinesFix.map mkLine
        sourceId := none, sourceType := none, status := "posted" }
      { stEmpty with entries := stEmpty.entries ++
          [{ id := "m1", referenceNo := "R9", date := 5, postingDate := 7
             memo := "memo", entryType := "manual", lines := okLinesFix.map mkLine
             sourceId := none, sourceType := none, status := "posted" }] }
      (by
        norm_num [postJournalEntries, accountCodesExist, reqDebitTotal,
          reqCreditTotal, lineReqDebit, lineReqCredit, tol, okLinesFix, stEmpty,
          accFix, mkLine]
        decide)
  · exact c1_posted_entries_balanced.2.1 stEmpty "m1" 7 (some "R9") (some 5)
      (some "memo") none badLinesFix none none (by decide) (by decide) (by decide)
      (by decide)
      (by norm_num [reqDebitTotal, reqCreditTotal, lineReqDebit, lineReqCredit,
        tol, badLinesFix])

/-- **C5 (counterexample).** The claim says a shipped COD order gets an
entry **and** a Receivable; for a shipped COD guest order (`user` is
null, which the order schema allows) the source posts the journal entry
but spawns no Receivable: the result carries `none` and the receivable
collection stays empty. -/
theorem c5_counterexample_guest_cod_order_gets_no_receivable :
    createSaleJournalEntry [] [] guestCODOrderFix "HD-1" "jeX" "rvX" 70 =
      (.created (saleEntryOf guestCODOrderFix "HD-1" "jeX" 70 (codSaleLines 300000))
        none,
       [saleEntryOf guestCODOrderFix "HD-1" "jeX" 70 (codSaleLines 300000)], []) ∧
    (createSaleJournalEntry [] [] guestCODOrderFix "HD-1" "jeX" "rvX" 70).2.2 = [] := by
  decide

/-- **C5 (amended).** Sale posting follows the payment-method rule: with
an entry already posted for the order it is returned untouched; a
bank-transfer-class order gets exactly one immediate entry debit
1121 / credit 511 for the order total and no receivable; a COD order not
yet shipped/delivered posts nothing; a shipped/delivered COD order
**with a customer reference** posts debit 131 / credit 511 and spawns
one Receivable with originalAmount = remainingAmount = order total,
paymentStatus unpaid, dueDate = ship date + 7-day grace (guest COD
orders get the entry but no Receivable, per the counterexample). -/
theorem c5_amended_sale_posting_rule (entries : List JournalEntry)
    (receivables : List Receivable) (order : Order)
    (refNo newEntryId newRecvId : String) (now : ℤ) :
    (∀ e0, entries.find? (fun e =>
        e.sourceId = some order.id ∧ e.sourceType = some "order") = some e0 →
      createSaleJournalEntry entries receivables order refNo newEntryId newRecvId now =
        (.existing e0, entries, receivables)) ∧
    (entries.find? (fun e =>
        e.sourceId = some order.id ∧ e.sourceType = some "order") = none →
      bankMethods.contains order.paymentMethod = true →
      createSaleJournalEntry entries receivables order refNo newEntryId newRecvId now =
        (.created (saleEntryOf order refNo newEntryId now
            (bankSaleLines order.finalTotal)) none,
         entries ++ [saleEntryOf order refNo newEntryId now
            (bankSaleLines order.finalTotal)],
         receivables)) ∧
    (entries.find? (fun e =>
        e.sourceId = some order.id ∧ e.sourceType = some "order") = none →
      order.paymentMethod = "COD" →
      order.status ≠ "shipped" → order.status ≠ "delivered" →
      createSaleJournalEntry entries receivables order refNo newEntryId newRecvId now =
        (.deferred, entries, receivables)) ∧
    (∀ customer,
      entries.find? (fun e =>
        e.sourceId = some order.id ∧ e.sourceType = some "order") = none →
      order.paymentMethod = "COD" →
      (order.status = "shipped" ∨ order.status = "delivered") →
      order.user = some customer →
      receivables.find? (fun r => r.orderRef = some order.id) = none →
      createSaleJournalEntry entries receivables order refNo newEntryId newRecvId now =
        (.created (saleEntryOf order refNo newEntryId now
            (codSaleLines order.finalTotal))
          (some (codReceivableOf order newEntryId newRecvId customer)),
         entries ++ [saleEntryOf order refNo newEntryId now
            (codSaleLines order.finalTotal)],
         receivables ++ [codReceivableOf order newEntryId newRecvId customer])) := by
  refine ⟨?_, ?_, ?_, ?_⟩
  · intro e0 hfound
    unfold createSaleJournalEntry
    rw [hfound]
  · intro hnone hbank
    have hpm : order.paymentMethod = "BankTransfer" ∨ order.paymentMethod = "Sepay" ∨
        order.paymentMethod = "MoMo" := by
      simpa [bankMethods] using hbank
    have hnotCOD : order.paymentMethod ≠ "COD" := by
      rcases hpm with h | h | h <;> simp [h]
    unfold createSaleJournalEntry
    rw [hnone]
    simp only [hnotCOD, hbank, saleEntryOf, bankSaleLines]
    simp [hnotCOD]
  · intro hnone hcod hs hd
    unfold createSaleJournalEntry
    rw [hnone]
    simp [hcod, hs, hd]
  · intro customer hnone hcod hstat huser hnorecv
    unfold createSaleJournalEntry
    rw [hnone]
    unfold createReceivableFromOrder
    rw [huser]
    rcases hstat with h | h <;>
      simp [hcod, h, hnorecv, saleEntryOf, codSaleLines, codReceivableOf]

/-- Witness for the amended C5 at a concrete shipped COD order with a
customer: the entry debits 131 / credits 511 by 300,000 and the
receivable has original = remaining = 300,000, unpaid, due at the ship
date plus 7. -/
theorem c5_amended_sale_posting_rule_witness :
    createSaleJournalEntry [] [] codOrderFix "HD-2" "jeY" "rvY" 70 =
      (.created (saleEntryOf codOrderFix "HD-2" "jeY" 70 (codSaleLines 300000))
        (some (codReceivableOf codOrderFix "jeY" "rvY" "u2")),
       [saleEntryOf codOrderFix "HD-2" "jeY" 70 (codSaleLines 300000)],
       [codReceivableOf codOrderFix "jeY" "rvY" "u2"]) :=
  (c5_amended_sale_posting_rule [] [] codOrderFix "HD-2" "jeY" "rvY" 70).2.2.2
    "u2" (by decide) (by decide) (by decide) (by decide) (by decide)

/-- **C7 (code bug).** The lock-date invariant is not enforced on
journal-entry mutation: for an entry dated inside a closed period whose
lock date covers it, `checkLockDate` reports locked and transaction
deletion is rejected, yet `PUT /journal-entries/:id` happily rewrites the
entry and `DELETE /journal-entries/:id` removes it — both carry only a
`TODO: Implement lock date check` comment where the guard should be. -/
theorem c7_lockdate_guard_bypassed_on_journal_entries :
    (checkLockDate stLockFix.periods lockedEntryFix.date).isLocked = true ∧
    updateJournalEntry stLockFix "je1" none none (some "changed") none none =
      (.okUpdated { lockedEntryFix with memo := "changed" },
       { stLockFix with entries := [{ lockedEntryFix with memo := "changed" }] }) ∧
    deleteJournalEntry stLockFix "je1" =
      (.okDeleted, { stLockFix with entries := [] }) ∧
    deleteTransaction stLockFix "t1" = (.forbiddenLocked, stLockFix) := by
  decide

/-- **C8.** For one asset and one target month: a history row for the
month or full depreciation means skip; a posted depreciation carries
amount `min(straight-line monthly amount, remaining book value)`, is
only posted when positive, keeps accumulated depreciation within the
original cost, appends exactly one history row for the month, and makes
any repeated invocation for the same (asset, month) a skip. -/
theorem c8_depreciation_at_most_once_per_month
    (targetMonth : String) (existingRefNos : List String) (newEntryId : String)
    (monthStart now : ℤ) (a : FixedAsset) :
    (a.depreciationHistory.any (fun d => d.month = targetMonth) = true →
      depreciateAsset targetMonth existingRefNos newEntryId monthStart now a = none) ∧
    (a.originalCost ≤ a.accumulatedDepreciation →
      depreciateAsset targetMonth existingRefNos newEntryId monthStart now a = none) ∧
    (∀ je a2,
      depreciateAsset targetMonth existingRefNos newEntryId monthStart now a =
        some (je, a2) →
      0 < min (jsOrQ a.monthlyDepreciation (a.originalCost / a.usefulLife))
          (a.originalCost - a.accumulatedDepreciation) ∧
      linesDebit je.lines =
        min (jsOrQ a.monthlyDepreciation (a.originalCost / a.usefulLife))
          (a.originalCost - a.accumulatedDepreciation) ∧
      linesCredit je.lines = linesDebit je.lines ∧
      a2.accumulatedDepreciation = a.accumulatedDepreciation +
        min (jsOrQ a.monthlyDepreciation (a.originalCost / a.usefulLife))
          (a.originalCost - a.accumulatedDepreciation) ∧
      a2.accumulatedDepreciation ≤ a.originalCost ∧
      (a.depreciationHistory.filter (fun d => d.month = targetMonth)).length = 0 ∧
      (a2.depreciationHistory.filter (fun d => d.month = targetMonth)).length = 1 ∧
      (∀ refs2 id2 ms2 now2,
        depreciateAsset targetMonth refs2 id2 ms2 now2 a2 = none)) := by
  refine ⟨?_, ?_, ?_⟩
  · intro h
    unfold depreciateAsset
    simp [h]
  · intro h
    unfold depreciateAsset
    split
    · rfl
    · simp [h]
  · intro je a2 hsome
    simp only [depreciateAsset] at hsome
    split at hsome
    · simp at hsome
    · split at hsome
      · simp at hsome
      · rename_i hAny hFull
        split at hsome
        · simp at hsome
        · rename_i hPos
          split at hsome
          · simp at hsome
          · simp only [Option.some.injEq, Prod.mk.injEq] at hsome
            obtain ⟨hje, ha2⟩ := hsome
            have hnoRow : a.depreciationHistory.filter
                (fun d => d.month = targetMonth) = [] := by
              refine List.filter_eq_nil_iff.mpr ?_
              intro d hd hmon
              exact hAny (List.any_eq_true.mpr ⟨d, hd, hmon⟩)
            have hAmtPos : 0 <
                min (jsOrQ a.monthlyDepreciation (a.originalCost / a.usefulLife))
                  (a.originalCost - a.accumulatedDepreciation) := not_le.mp hPos
            have hacc : a2.accumulatedDepreciation = a.accumulatedDepreciation +
                min (jsOrQ a.monthlyDepreciation (a.originalCost / a.usefulLife))
                  (a.originalCost - a.accumulatedDepreciation) := by
              rw [← ha2]
            have hhist : a2.depreciationHistory = a.depreciationHistory ++
                [{ month := targetMonth
                   amount := min (jsOrQ a.monthlyDepreciation
                       (a.originalCost / a.usefulLife))
                     (a.originalCost - a.accumulatedDepreciation)
                   journalEntryRef := newEntryId }] := by
              rw [← ha2]
            refine ⟨hAmtPos, ?_, ?_, hacc, ?_, ?_, ?_, ?_⟩
            · rw [← hje]; simp [linesDebit]
            · rw [← hje]; simp [linesDebit, linesCredit]
            · rw [hacc]
              have hmin := min_le_right
                (jsOrQ a.monthlyDepreciation (a.originalCost / a.usefulLife))
                (a.originalCost - a.accumulatedDepreciation)
              linarith
            · rw [hnoRow]; rfl
            · rw [hhist, List.filter_append, hnoRow, List.filter_cons]
              simp
            · intro refs2 id2 ms2 now2
              simp [depreciateAsset, hhist, List.any_append]

/-- Witness for C8 at a concrete asset: cost 1200 over 12 months posts
100 for 2024-01, accumulating to 100 ≤ 1200, with exactly one history
row, and the second run for 2024-01 is skipped. -/
theorem c8_depreciation_at_most_once_per_month_witness :
    (depAssetAfterFix.depreciationHistory.filter
      (fun d => d.month = "2024-01")).length = 1 ∧
    depreciateAsset "2024-01" ["other"] "jeZ" 9 9 depAssetAfterFix = none := by
  have h := (c8_depreciation_at_most_once_per_month "2024-01" [] "je9" 0 5
    assetFix).2.2 depJeFix depAssetAfterFix
    (by
      norm_num [depreciateAsset, depRefNo, jsOrS, jsOrQ, min_def, assetFix,
        depJeFix, depAssetAfterFix]
      decide)
  exact ⟨h.2.2.2.2.2.2.1, h.2.2.2.2.2.2.2 ["other"] "jeZ" 9 9⟩

/-- **C6.** On an open period, close-period reports
netProfit = totalRevenue − totalExpense over the period's posted lines,
persists the closing entries dated at the period end with status posted,
rolls a positive net profit as debit 911 / credit 421 (and a loss as the
reverse of its absolute value), and marks the period closed with the
given lock date. -/
theorem c6_close_period_profit_rollup (st : St) (pid : String) (ld now : ℤ)
    (userId : Option String) (idR idE idP refR refE refP : String) (p : Period)
    (hfind : st.periods.find? (fun q => q.id = pid) = some p)
    (hopen : p.status ≠ "closed") :
    closePeriod st (some pid) (some ld) now userId idR idE idP refR refE refP =
      (.ok { totalRevenue := totalRevenueOf st p
             totalExpense := totalExpenseOf st p
             netProfit := totalRevenueOf st p - totalExpenseOf st p }
        (closingEntriesFor st p now idR idE idP refR refE refP),
       { st with
         entries := st.entries ++ closingEntriesFor st p now idR idE idP refR refE refP
         periods := st.periods.map (fun q => if q.id = pid then
           { p with lockDate := some ld, status := "closed", closedAt := some now,
                      closedBy := userId } else q) }) ∧
    (∀ e ∈ closingEntriesFor st p now idR idE idP refR refE refP,
      e.date = p.endDate ∧ e.status = "posted" ∧ e.entryType = "closing") ∧
    (0 < totalRevenueOf st p - totalExpenseOf st p →
      mkClosingEntry idP refP "close net profit or loss" p now
        [⟨"911", totalRevenueOf st p - totalExpenseOf st p, 0, "close net profit"⟩,
         ⟨"421", 0, totalRevenueOf st p - totalExpenseOf st p, "retained earnings"⟩] ∈
        closingEntriesFor st p now idR idE idP refR refE refP) ∧
    (totalRevenueOf st p - totalExpenseOf st p < 0 →
      mkClosingEntry idP refP "close net profit or loss" p now
        [⟨"421", |totalRevenueOf st p - totalExpenseOf st p|, 0, "close net loss"⟩,
         ⟨"911", 0, |totalRevenueOf st p - totalExpenseOf st p|,
          "unallocated loss"⟩] ∈
        closingEntriesFor st p now idR idE idP refR refE refP) := by
  refine ⟨?_, ?_, ?_, ?_⟩
  · simp only [closePeriod]
    rw [hfind]
    simp [hopen]
  · intro e he
    unfold closingEntriesFor at he
    rcases List.mem_append.mp he with h | h
    · rcases List.mem_append.mp h with h2 | h2
      · rw [eq_of_mem_ite_nil_singleton h2]; exact ⟨rfl, rfl, rfl⟩
      · rw [eq_of_mem_ite_nil_singleton h2]; exact ⟨rfl, rfl, rfl⟩
    · rw [eq_of_mem_ite_nil_singleton h]; exact ⟨rfl, rfl, rfl⟩
  · intro hpos
    unfold closingEntriesFor
    refine List.mem_append.mpr (Or.inr ?_)
    have hlines : profitClosingLines (totalRevenueOf st p - totalExpenseOf st p) =
        [⟨"911", totalRevenueOf st p - totalExpenseOf st p, 0, "close net profit"⟩,
         ⟨"421", 0, totalRevenueOf st p - totalExpenseOf st p,
          "retained earnings"⟩] := by
      unfold profitClosingLines
      rw [if_pos hpos]
    rw [hlines]
    simp
  · intro hneg
    unfold closingEntriesFor
    refine List.mem_append.mpr (Or.inr ?_)
    have hnpos : ¬ 0 < totalRevenueOf st p - totalExpenseOf st p := by linarith
    have hlines : profitClosingLines (totalRevenueOf st p - totalExpenseOf st p) =
        [⟨"421", |totalRevenueOf st p - totalExpenseOf st p|, 0, "close net loss"⟩,
         ⟨"911", 0, |totalRevenueOf st p - totalExpenseOf st p|,
          "unallocated loss"⟩] := by
      unfold profitClosingLines
      rw [if_neg hnpos, if_pos hneg]
    rw [hlines]
    simp

/-- Witness for C6 at a concrete open period with revenue 1,000,000 and
expense 700,000 posted inside it. -/
theorem c6_close_period_profit_rollup_witness :
    closePeriod stCloseFix (some "p2") (some 100) 200 none
        "i1" "i2" "i3" "r1" "r2" "r3" =
      (.ok { totalRevenue := totalRevenueOf stCloseFix openPeriodFix
             totalExpense := totalExpenseOf stCloseFix openPeriodFix
             netProfit := totalRevenueOf stCloseFix openPeriodFix -
               totalExpenseOf stCloseFix openPeriodFix }
        (closingEntriesFor stCloseFix openPeriodFix 200 "i1" "i2" "i3" "r1" "r2" "r3"),
       { stCloseFix with
         entries := stCloseFix.entries ++
           closingEntriesFor stCloseFix openPeriodFix 200 "i1" "i2" "i3" "r1" "r2" "r3"
         periods := stCloseFix.periods.map (fun q => if q.id = "p2" then
           { openPeriodFix with lockDate := some 100, status := "closed",
                                  closedAt := some 200, closedBy := none } else q) }) :=
  (c6_close_period_profit_rollup stCloseFix "p2" 100 200 none
    "i1" "i2" "i3" "r1" "r2" "r3" openPeriodFix (by decide) (by decide)).1

/-- Witness for C2 at a concrete order: after the first posting the state
holds exactly one COGS entry for `o1`, and a second posting returns it
unchanged. -/
theorem c2_postcogs_idempotent_witness :
    (stCOGSAfterFix.entries.filter (isCOGSEntryFor "o1")).length = 1 ∧
    postCOGSEntry stCOGSAfterFix "o1" "je2" "COGS-2" 80 =
      (.ok (cogsNewEntryFix, []), stCOGSAfterFix) :=
  c2_postcogs_idempotent stCOGSFix "o1" "je1" "COGS-1" "je2" "COGS-2" 70 80
    cogsNewEntryFix cogsUpsFix stCOGSAfterFix (by decide)
    (by norm_num [postCOGSEntry, findCOGSEntry, isCOGSEntryFor, cogsLoop, jsOrQ,
      linesDebit, linesCredit, tol, stCOGSFix, stCOGSAfterFix, stEmpty, accFix,
      prodFix, orderFix, cogsNewEntryFix, cogsUpsFix, ProdUpdate.mk.injEq])

/-- Splitting a mapped sum along a decidable predicate. -/
theorem sum_map_filter_split {α} (f : α → ℚ) (p : α → Prop) [DecidablePred p]
    (ls : List α) :
    ((ls.filter (fun l => p l)).map f).sum +
      ((ls.filter (fun l => ¬ p l)).map f).sum = (ls.map f).sum := by
  induction ls with
  | nil => simp
  | cons a l ih =>
    simp only [decide_not] at ih
    by_cases hp : p a
    · simp [List.filter_cons, hp, decide_not]
      rw [← ih]
      ring
    · simp [List.filter_cons, hp, decide_not]
      rw [← ih]
      ring

/-- Grouping identity: summing per-key filtered sums over a duplicate-free
covering key list recovers the total sum. -/
theorem sum_map_filter_groups (f : Line → ℚ) :
    ∀ (keys : List String) (ls : List Line), keys.Nodup →
      (∀ l ∈ ls, l.accountCode ∈ keys) →
      (keys.map (fun c =>
        ((ls.filter (fun l => l.accountCode = c)).map f).sum)).sum =
        (ls.map f).sum := by
  intro keys
  induction keys with
  | nil =>
    intro ls _ hcov
    have hnil : ls = [] := by
      cases ls with
      | nil => rfl
      | cons a t => exact absurd (hcov a (List.mem_cons_self a t)) (List.not_mem_nil _)
    rw [hnil]
    rfl
  | cons c ks ih =>
    intro ls hnd hcov
    have hcks : c ∉ ks := (List.nodup_cons.mp hnd).1
    have hnd' : ks.Nodup := (List.nodup_cons.mp hnd).2
    have hsplit := sum_map_filter_split f (fun l => l.accountCode = c) ls
    have hk : ∀ k ∈ ks,
        ls.filter (fun l => l.accountCode = k) =
        (ls.filter (fun l => ¬ l.accountCode = c)).filter
          (fun l => l.accountCode = k) := by
      intro k hkmem
      rw [List.filter_filter]
      apply List.filter_congr
      intro l hl
      by_cases hck : l.accountCode = k
      · have hne : ¬ k = c := by
          intro hkeq
          exact hcks (hkeq ▸ hkmem)
        simp [hck, hne]
      · simp [hck]
    have hcov' : ∀ l ∈ ls.filter (fun l => ¬ l.accountCode = c),
        l.accountCode ∈ ks := by
      intro l hl
      have hne : ¬ l.accountCode = c := by
        have hmem := List.of_mem_filter hl
        simpa using hmem
      rcases List.mem_cons.mp (hcov l (List.mem_of_mem_filter hl)) with h | h
      · exact absurd h hne
      · exact h
    rw [List.map_cons, List.sum_cons]
    have hmap : (ks.map (fun k =>
        ((ls.filter (fun l => l.accountCode = k)).map f).sum)) =
        (ks.map (fun k =>
        (((ls.filter (fun l => ¬ l.accountCode = c)).filter
          (fun l => l.accountCode = k)).map f).sum)) :=
      List.map_congr_left (fun k hkmem => by rw [hk k hkmem])
    rw [hmap, ih _ hnd' hcov', ← hsplit]

/-- The trial-balance rows are a permutation of the rows built over the
unsorted duplicate-free code list (the sort only reorders). -/
theorem trialBalance_perm (st : St) (sd ed : Option ℤ) :
    (trialBalance st sd ed).Perm
      ((((rangeLines st sd ed).map Line.accountCode).dedup).filterMap (fun c =>
        match st.accounts.find? (fun a => a.code = c) with
        | some acc =>
          some { accountCode := c
                 accountName := acc.name
                 accountType := acc.accountType
                 totalDebit := (((rangeLines st sd ed).filter
                   (fun l => l.accountCode = c)).map Line.debit).sum
                 totalCredit := (((rangeLines st sd ed).filter
                   (fun l => l.accountCode = c)).map Line.credit).sum }
        | none => none)) := by
  unfold trialBalance
  exact (List.mergeSort_perm _ _).filterMap _

/-- Under full account coverage the row-building `filterMap` drops
nothing: row debit totals sum like the per-key sums. -/
theorem tb_filterMap_sum_debit (accounts : List Account) (ls : List Line) :
    ∀ keys : List String,
      (∀ c ∈ keys, (accounts.find? (fun a => a.code = c)).isSome) →
      ((keys.filterMap (fun c =>
        match accounts.find? (fun a => a.code = c) with
        | some acc =>
          some { accountCode := c
                 accountName := acc.name
                 accountType := acc.accountType
                 totalDebit := ((ls.filter (fun l => l.accountCode = c)).map Line.debit).sum
                 totalCredit := ((ls.filter (fun l => l.accountCode = c)).map Line.credit).sum : TBRow }
        | none => none)).map TBRow.totalDebit).sum =
      (keys.map (fun c =>
        ((ls.filter (fun l => l.accountCode = c)).map Line.debit).sum)).sum := by
  intro keys
  induction keys with
  | nil => intro _; rfl
  | cons c ks ih =>
    intro hcov
    obtain ⟨acc, hacc⟩ := Option.isSome_iff_exists.mp (hcov c (List.mem_cons_self c ks))
    simp only [List.filterMap_cons, hacc, List.map_cons, List.sum_cons]
    rw [ih (fun k hk => hcov k (List.mem_cons_of_mem c hk))]

/-- Credit twin of `tb_filterMap_sum_debit`. -/
theorem tb_filterMap_sum_credit (accounts : List Account) (ls : List Line) :
    ∀ keys : List String,
      (∀ c ∈ keys, (accounts.find? (fun a => a.code = c)).isSome) →
      ((keys.filterMap (fun c =>
        match accounts.find? (fun a => a.code = c) with
        | some acc =>
          some { accountCode := c
                 accountName := acc.name
                 accountType := acc.accountType
                 totalDebit := ((ls.filter (fun l => l.accountCode = c)).map Line.debit).sum
                 totalCredit := ((ls.filter (fun l => l.accountCode = c)).map Line.credit).sum : TBRow }
        | none => none)).map TBRow.totalCredit).sum =
      (keys.map (fun c =>
        ((ls.filter (fun l => l.accountCode = c)).map Line.credit).sum)).sum := by
  intro keys
  induction keys with
  | nil => intro _; rfl
  | cons c ks ih =>
    intro hcov
    obtain ⟨acc, hacc⟩ := Option.isSome_iff_exists.mp (hcov c (List.mem_cons_self c ks))
    simp only [List.filterMap_cons, hacc, List.map_cons, List.sum_cons]
    rw [ih (fun k hk => hcov k (List.mem_cons_of_mem c hk))]

/-- Under full coverage the trial-balance debit column sums to the debit
total of all matched lines. -/
theorem tb_debit_total (st : St) (sd ed : Option ℤ)
    (hcov : ∀ l ∈ rangeLines st sd ed,
      (st.accounts.find? (fun a => a.code = l.accountCode)).isSome) :
    ((trialBalance st sd ed).map TBRow.totalDebit).sum =
      ((rangeLines st sd ed).map Line.debit).sum := by
  have hkeys : ∀ c ∈ ((rangeLines st sd ed).map Line.accountCode).dedup,
      (st.accounts.find? (fun a => a.code = c)).isSome := by
    intro c hc
    obtain ⟨l, hl, hlc⟩ := List.mem_map.mp (List.mem_dedup.mp hc)
    exact hlc ▸ hcov l hl
  rw [List.Perm.sum_eq (List.Perm.map TBRow.totalDebit (trialBalance_perm st sd ed))]
  rw [tb_filterMap_sum_debit st.accounts (rangeLines st sd ed) _ hkeys]
  exact sum_map_filter_groups Line.debit _ _ (List.nodup_dedup _)
    (fun l hl => List.mem_dedup.mpr (List.mem_map_of_mem Line.accountCode hl))

/-- Credit twin of `tb_debit_total`. -/
theorem tb_credit_total (st : St) (sd ed : Option ℤ)
    (hcov : ∀ l ∈ rangeLines st sd ed,
      (st.accounts.find? (fun a => a.code = l.accountCode)).isSome) :
    ((trialBalance st sd ed).map TBRow.totalCredit).sum =
      ((rangeLines st sd ed).map Line.credit).sum := by
  have hkeys : ∀ c ∈ ((rangeLines st sd ed).map Line.accountCode).dedup,
      (st.accounts.find? (fun a => a.code = c)).isSome := by
    intro c hc
    obtain ⟨l, hl, hlc⟩ := List.mem_map.mp (List.mem_dedup.mp hc)
    exact hlc ▸ hcov l hl
  rw [List.Perm.sum_eq (List.Perm.map TBRow.totalCredit (trialBalance_perm st sd ed))]
  rw [tb_filterMap_sum_credit st.accounts (rangeLines st sd ed) _ hkeys]
  exact sum_map_filter_groups Line.credit _ _ (List.nodup_dedup _)
    (fun l hl => List.mem_dedup.mpr (List.mem_map_of_mem Line.accountCode hl))

/-- Sum over unwound lines equals the sum over entries of per-entry line
sums. -/
theorem sum_flatMap_lines (f : Line → ℚ) (es : List JournalEntry) :
    ((es.flatMap JournalEntry.lines).map f).sum =
      (es.map (fun e => (e.lines.map f).sum)).sum := by
  induction es with
  | nil => rfl
  | cons e l ih =>
    simp [List.flatMap_cons, List.map_append, List.sum_append, ih]

/-- **C4 (counterexample).** The claim promises Σ(totalDebit) ==
Σ(totalCredit) for every date range.  In `stTBGapFix` a posted
depreciation entry credits account 214, which has no account document:
the `$lookup`+`$unwind` inner join silently drops that group, so the
report shows total debit 100 against total credit 0. -/
theorem c4_counterexample_missing_account_unbalances_report :
    ((trialBalance stTBGapFix none none).map TBRow.totalDebit).sum = 100 ∧
    ((trialBalance stTBGapFix none none).map TBRow.totalCredit).sum = 0 ∧
    ((trialBalance stTBGapFix none none).map TBRow.totalDebit).sum ≠
      ((trialBalance stTBGapFix none none).map TBRow.totalCredit).sum := by
  have hls : rangeLines stTBGapFix none none =
      [⟨"642", 100, 0, ""⟩, ⟨"214", 0, 100, ""⟩] := by decide
  have h642 : stTBGapFix.accounts.find? (fun a => a.code = "642") =
      some ⟨"642", "Administration expense", "expense", "active"⟩ := by decide
  have h214 : stTBGapFix.accounts.find? (fun a => a.code = "214") = none := by
    decide
  have hdedup : (([⟨"642", 100, 0, ""⟩, ⟨"214", 0, 100, ""⟩] :
      List Line).map Line.accountCode).dedup = ["642", "214"] := by decide
  have h1 : ((trialBalance stTBGapFix none none).map TBRow.totalDebit).sum = 100 := by
    rw [List.Perm.sum_eq
      (List.Perm.map TBRow.totalDebit (trialBalance_perm stTBGapFix none none))]
    rw [hls, hdedup]
    simp only [List.filterMap_cons, List.filterMap_nil, h642, h214,
      List.map_cons, List.map_nil, List.sum_cons, List.sum_nil]
    norm_num [List.filter_cons, List.filter_nil]
    decide
  have h2 : ((trialBalance stTBGapFix none none).map TBRow.totalCredit).sum = 0 := by
    rw [List.Perm.sum_eq
      (List.Perm.map TBRow.totalCredit (trialBalance_perm stTBGapFix none none))]
    rw [hls, hdedup]
    simp only [List.filterMap_cons, List.filterMap_nil, h642, h214,
      List.map_cons, List.map_nil, List.sum_cons, List.sum_nil]
    norm_num [List.filter_cons, List.filter_nil]
    decide
  refine ⟨h1, h2, ?_⟩
  rw [h1, h2]
  norm_num

/-- **C4.** Amended trial-balance property: provided every account code
appearing on a matched line has an account document (so the inner join
drops no group), and every posted entry in the range has exactly equal
debit and credit totals, the report satisfies
Σ(totalDebit) = Σ(totalCredit) across the returned rows. -/
theorem c4_amended_trial_balance_balanced :
    ∀ st sd ed,
      (∀ l ∈ rangeLines st sd ed,
        (st.accounts.find? (fun a => a.code = l.accountCode)).isSome) →
      (∀ e ∈ postedInRange st sd ed, linesDebit e.lines = linesCredit e.lines) →
      ((trialBalance st sd ed).map TBRow.totalDebit).sum =
        ((trialBalance st sd ed).map TBRow.totalCredit).sum := by
  intro st sd ed hcov hbal
  rw [tb_debit_total st sd ed hcov, tb_credit_total st sd ed hcov]
  unfold rangeLines
  rw [sum_flatMap_lines Line.debit, sum_flatMap_lines Line.credit]
  congr 1
  apply List.map_congr_left
  intro e he
  have hb := hbal e he
  unfold linesDebit linesCredit at hb
  exact hb

/-- Witness for C4 on a concrete state whose two posted entries balance
and whose codes all exist: both hypotheses hold and the report balances. -/
theorem c4_amended_trial_balance_balanced_witness :
    (∀ l ∈ rangeLines stTBOkFix none none,
      (stTBOkFix.accounts.find? (fun a => a.code = l.accountCode)).isSome) ∧
    ((trialBalance stTBOkFix none none).map TBRow.totalDebit).sum =
      ((trialBalance stTBOkFix none none).map TBRow.totalCredit).sum := by
  have h1 : ∀ l ∈ rangeLines stTBOkFix none none,
      (stTBOkFix.accounts.find? (fun a => a.code = l.accountCode)).isSome := by
    decide
  have h2 : ∀ e ∈ postedInRange stTBOkFix none none,
      linesDebit e.lines = linesCredit e.lines := by
    have hpe : postedInRange stTBOkFix none none = [revEntryFix, expEntryFix] := by
      decide
    rw [hpe]
    intro e he
    rcases List.mem_cons.mp he with h | h
    · rw [h]
      norm_num [revEntryFix, linesDebit, linesCredit]
    · rcases List.mem_cons.mp h with hh | hh
      · rw [hh]
        norm_num [expEntryFix, linesDebit, linesCredit]
      · exact absurd hh (List.not_mem_nil e)
  exact ⟨h1, c4_amended_trial_balance_balanced stTBOkFix none none h1 h2⟩

/-- **C9 (counterexample).** The claim says every posting of a journal
entry together with its debt record runs in one atomic transaction.
`POST /transactions` opens no session: with an injected failure of the
`Receivable` save, the call still answers created, the transaction and
the journal entry (reference `TXN-t1`, sourceType `transaction`) stay
committed, and no receivable exists — a partial commit with an orphaned
entry. -/
theorem c9_counterexample_transactions_partial_commit :
    ((postTransactions stTxFix (some "income") (some 200) (some "Bán hàng")
        (some "Bán hàng") (some 50) none (some "unpaid") txIdsFix 99 true).1 =
      .created ⟨"t1", "income", 200, "Bán hàng", "Bán hàng", 50, "", "unpaid"⟩) ∧
    ((postTransactions stTxFix (some "income") (some 200) (some "Bán hàng")
        (some "Bán hàng") (some 50) none (some "unpaid") txIdsFix 99
        true).2.transactions.any (fun t => t.id = "t1") = true) ∧
    ((postTransactions stTxFix (some "income") (some 200) (some "Bán hàng")
        (some "Bán hàng") (some 50) none (some "unpaid") txIdsFix 99
        true).2.entries.any (fun e =>
          e.referenceNo = "TXN-t1" ∧ e.sourceType = some "transaction") = true) ∧
    ((postTransactions stTxFix (some "income") (some 200) (some "Bán hàng")
        (some "Bán hàng") (some 50) none (some "unpaid") txIdsFix 99
        true).2.receivables = []) := by
  decide

/-- **C9.** Amended atomicity property, which holds only of the
session-wrapped `POST /post-entry`: (1) any error response leaves the
stored state exactly as it was (the transaction aborts, no partial
commit); (2) for an unpaid income request, an injected failure of the
`Receivable` save makes the whole call fail — it can never return a
created entry — and the state is unchanged; (3) whenever such a call
does succeed, the final state holds a `Receivable` pointing at the
returned journal entry: no orphaned entry without its debt record. -/
theorem c9_amended_post_entry_transactional :
    (∀ st r ids now f e, (postEntry st r ids now f).1 = .err e →
      (postEntry st r ids now f).2 = st) ∧
    (∀ st r ids now, r.type = "income" → r.paymentStatus = some "unpaid" →
      (∀ x, postEntryCore st r ids now true ≠ .ok x) ∧
      (postEntry st r ids now true).2 = st) ∧
    (∀ st r ids now f e st2, r.type = "income" →
      r.paymentStatus = some "unpaid" →
      postEntryCore st r ids now f = .ok (e, st2) →
      ∃ rv ∈ st2.receivables, rv.journalEntry = e.id) := by
  refine ⟨?_, ?_, ?_⟩
  · intro st r ids now f e h
    cases hc : postEntryCore st r ids now f with
    | error x => simp [postEntry, hc]
    | ok y => simp [postEntry, hc] at h
  · intro st r ids now hty hunpaid
    have hcore : ∀ x, postEntryCore st r ids now true ≠ .ok x := by
      intro x h
      simp only [postEntryCore] at h
      split at h
      · exact Except.noConfusion h
      · split at h
        · exact Except.noConfusion h
        · split at h
          · exact Except.noConfusion h
          · split at h
            · exact Except.noConfusion h
            · rename_i hnameg
              split at h
              · exact Except.noConfusion h
              · split at h
                · exact Except.noConfusion h
                · rename_i hdueg
                  split at h
                  · exact Except.noConfusion h
                  · split at h
                    · exact Except.noConfusion h
                    · split at h
                      · exact Except.noConfusion h
                      · split at h
                        · exact Except.noConfusion h
                        · exact pePost_debt_fail hty hunpaid
                            (fun hn => hnameg ⟨hunpaid, hn⟩)
                            (by
                              cases hdd : r.dueDate with
                              | none =>
                                exact absurd ⟨hunpaid, by rw [hdd]; rfl⟩ hdueg
                              | some d => rfl)
                            h
    refine ⟨hcore, ?_⟩
    cases hc : postEntryCore st r ids now true with
    | error x => simp [postEntry, hc]
    | ok y => exact absurd hc (hcore y)
  · intro st r ids now f e st2 hty hunpaid h
    simp only [postEntryCore] at h
    split at h
    · exact Except.noConfusion h
    · split at h
      · exact Except.noConfusion h
      · split at h
        · exact Except.noConfusion h
        · split at h
          · exact Except.noConfusion h
          · rename_i hnameg
            split at h
            · exact Except.noConfusion h
            · split at h
              · exact Except.noConfusion h
              · rename_i hdueg
                split at h
                · exact Except.noConfusion h
                · split at h
                  · exact Except.noConfusion h
                  · split at h
                    · exact Except.noConfusion h
                    · split at h
                      · exact Except.noConfusion h
                      · exact pePost_ok_receivable hty hunpaid
                          (fun hn => hnameg ⟨hunpaid, hn⟩)
                          (by
                            cases hdd : r.dueDate with
                            | none =>
                              exact absurd ⟨hunpaid, by rw [hdd]; rfl⟩ hdueg
                            | some d => rfl)
                          h

/-- Witness for C9 at a concrete unpaid income request with the injected
debt-save failure: the call cannot succeed and the state is unchanged. -/
theorem c9_amended_post_entry_transactional_witness :
    (∀ x, postEntryCore stTxFix peReqFix peIdsFix 99 true ≠ .ok x) ∧
    (postEntry stTxFix peReqFix peIdsFix 99 true).2 = stTxFix :=
  c9_amended_post_entry_transactional.2.1 stTxFix peReqFix peIdsFix 99
    (by decide) (by decide)

end Eco
